import Mathlib

/-!
# pyPreservica — formal model of the client library

A shallow embedding of the pyPreservica Python client
(`pyPreservica/common.py`, `pyPreservica/entityAPI.py`,
`pyPreservica/uploadAPI.py`) in Lean 4, together with theorems settling the
specification claims about it.

Conventions used throughout:

* Python strings are modelled as `List Char` (Lean `String` is wrapped only
  at the edges).  Python's truthiness of a possibly-absent string is
  `pyTruthy : Option (List Char) → Bool`.
* Python slicing with possibly negative indices is modelled by `pySlice`,
  `pyTakeTo` (for `s[:k]`) and `List.drop` (for `s[k:]`, `k ≥ 0`).
* HTTP traffic is modelled by a trace: the list of replies the server would
  give to the successive requests an operation issues.  Every issued request
  consumes one reply from the trace.
* Library calls whose tables are outside the repository (SHA-1, Unicode NFKD
  normalisation) are taken as explicit function parameters of the embedding;
  witnesses and counterexamples instantiate them on inputs where their
  behaviour is forced (NFKD is the identity on the ASCII inputs used).
-/

set_option maxRecDepth 4000

namespace PyPreservica

/-! ## Python string primitives -/

/-- Python truthiness of an optional string value (`if not x`):
`None` and the empty string are falsy. -/
def pyTruthy : Option (List Char) → Bool
  | none => false
  | some s => !s.isEmpty

/-- Python `s[:k]` for an `Int` index `k`: non-negative `k` takes the first
`k` characters, negative `k` drops the last `-k` characters (clamped at 0). -/
def pyTakeTo (k : Int) (l : List Char) : List Char :=
  if 0 ≤ k then l.take k.toNat else l.take (l.length - (-k).toNat)

/-- Python `s.rstrip(cs)`: remove trailing characters belonging to `cs`. -/
def pyRstrip (cs : List Char) (l : List Char) : List Char :=
  (l.reverse.dropWhile (fun c => cs.contains c)).reverse

/-- Python `s.lstrip(cs)`. -/
def pyLstrip (cs : List Char) (l : List Char) : List Char :=
  l.dropWhile (fun c => cs.contains c)

/-- The code points Python's `str.isspace` (hence `str.strip()`) treats as
whitespace. -/
def pySpaceCodes : List Nat :=
  [9, 10, 11, 12, 13, 28, 29, 30, 31, 32, 133, 160, 5760,
   8192, 8193, 8194, 8195, 8196, 8197, 8198, 8199, 8200, 8201, 8202,
   8232, 8233, 8239, 8287, 12288]

def pyIsSpace (c : Char) : Bool := pySpaceCodes.contains c.toNat

/-- Python `s.strip()` with no argument: strip Unicode whitespace from both
ends. -/
def pyStrip (l : List Char) : List Char :=
  ((l.dropWhile pyIsSpace).reverse.dropWhile pyIsSpace).reverse

/-! ## `common.sanitize` (common.py lines 537-582)

`unicodedata.normalize("NFKD", ·)` is a Unicode-table library call; the
embedding takes it as the parameter `normalize`.  On ASCII-only strings NFKD
is the identity, so theorems about ASCII inputs instantiate `normalize := id`.
-/

/-- The blacklisted characters of `sanitize`. -/
def blacklist : List Char := ['\\', '/', ':', '*', '?', '\"', '<', '>', '|', '\x00']

/-- The reserved Windows device names of `sanitize`. -/
def reservedNames : List (List Char) :=
  ["CON", "PRN", "AUX", "NUL", "COM1", "COM2", "COM3", "COM4", "COM5",
   "COM6", "COM7", "COM8", "COM9", "LPT1", "LPT2", "LPT3", "LPT4", "LPT5",
   "LPT6", "LPT7", "LPT8", "LPT9"].map String.data

/-- The final (length-limiting) branch of `sanitize`, entered when the name
still has more than 255 characters (common.py lines 564-581). -/
def sanitizeLong (filename : List Char) : List Char :=
  -- parts = re.split(r"[/\\]", filename)[-1].split(".")
  let base := ((filename.splitOnP (fun c => c == '/' || c == '\\')).getLastD [])
  let parts := base.splitOnP (fun c => c == '.')
  let extAndName :=
    if parts.length > 1 then
      let ext := '.' :: parts.getLastD []
      (ext, pyTakeTo (-(ext.length : Int)) filename)
    else
      (([] : List Char), filename)
  let ext := extAndName.1
  let filename := extAndName.2
  let filename := if filename = [] then ['_', '_'] else filename
  let ext := if ext.length > 254 then ext.drop 254 else ext
  let maxl : Int := 255 - (ext.length : Int)
  let filename := pyTakeTo maxl filename
  let filename := filename ++ ext
  let filename := pyRstrip ['.', ' '] filename
  if filename.length = 0 then ['_', '_'] else filename

/-- `common.sanitize`, translated line by line from common.py lines 537-582.
`normalize` stands for `unicodedata.normalize("NFKD", ·)`. -/
def sanitize (normalize : List Char → List Char) (filename0 : List Char) : List Char :=
  let filename := filename0.filter (fun c => !blacklist.contains c)
  let filename := filename.filter (fun c => 31 < c.toNat)
  let filename := normalize filename
  let filename := pyRstrip ['.', ' '] filename
  let filename := pyStrip filename
  let filename := if filename.all (fun x => x == '.') then '_' :: '_' :: filename else filename
  let filename := if reservedNames.contains filename then '_' :: '_' :: filename else filename
  let filename := if filename.length = 0 then ['_', '_'] else filename
  if filename.length > 255 then sanitizeLong filename else filename

/-! ## XML documents (`xml.etree.ElementTree`)

A qualified tag `{ns}Name` of ElementTree is modelled as a `QName` pair. -/

structure QName where
  ns : String
  name : String
  deriving DecidableEq, Repr

/-- An ElementTree element: tag, attributes, text, children. -/
inductive XmlNode where
  | elem (tag : QName) (attribs : List (String × String)) (text : Option String)
      (children : List XmlNode)

mutual

def XmlNode.decEq : (a b : XmlNode) → Decidable (a = b)
  | .elem t1 a1 x1 c1, .elem t2 a2 x2 c2 =>
    if h1 : t1 = t2 then
      if h2 : a1 = a2 then
        if h3 : x1 = x2 then
          match XmlNode.decEqList c1 c2 with
          | isTrue h4 => isTrue (by rw [h1, h2, h3, h4])
          | isFalse h4 => isFalse (by intro h; injection h; contradiction)
        else isFalse (by intro h; injection h; contradiction)
      else isFalse (by intro h; injection h; contradiction)
    else isFalse (by intro h; injection h; contradiction)

def XmlNode.decEqList : (a b : List XmlNode) → Decidable (a = b)
  | [], [] => isTrue rfl
  | [], _ :: _ => isFalse (by intro h; exact List.noConfusion h)
  | _ :: _, [] => isFalse (by intro h; exact List.noConfusion h)
  | a :: as, b :: bs =>
    match XmlNode.decEq a b, XmlNode.decEqList as bs with
    | isTrue h1, isTrue h2 => isTrue (by rw [h1, h2])
    | isFalse h1, _ => isFalse (by intro h; injection h; contradiction)
    | _, isFalse h2 => isFalse (by intro h; injection h; contradiction)

end

instance : DecidableEq XmlNode := XmlNode.decEq

instance : Repr XmlNode := ⟨fun _ _ => Std.Format.text "<xml>"⟩

def XmlNode.tag : XmlNode → QName
  | .elem t _ _ _ => t

def XmlNode.attribs : XmlNode → List (String × String)
  | .elem _ a _ _ => a

def XmlNode.text : XmlNode → Option String
  | .elem _ _ x _ => x

def XmlNode.children : XmlNode → List XmlNode
  | .elem _ _ _ cs => cs

mutual

/-- All proper descendants of an element, in document order
(ElementTree's `.//` axis relative to the element). -/
def XmlNode.descendants : XmlNode → List XmlNode
  | .elem _ _ _ cs => XmlNode.descList cs

def XmlNode.descList : List XmlNode → List XmlNode
  | [] => []
  | c :: cs => c :: (XmlNode.descendants c ++ XmlNode.descList cs)

end

/-- `element.findall(f'.//{t}')`. -/
def XmlNode.findallDesc (x : XmlNode) (t : QName) : List XmlNode :=
  x.descendants.filter (fun e => e.tag = t)

/-- `element.find(f'.//{t}')`. -/
def XmlNode.findDesc (x : XmlNode) (t : QName) : Option XmlNode :=
  (x.findallDesc t).head?

/-- `element.findall(f'.//{t1}/{t2}')`: `t2` children of `t1` descendants. -/
def XmlNode.findallDescChild (x : XmlNode) (t1 t2 : QName) : List XmlNode :=
  (x.findallDesc t1).flatMap (fun m => m.children.filter (fun c => c.tag = t2))

/-- Insertion-ordered Python `dict` update `d[k] = v`: overwrite in place if
the key is present, append otherwise. -/
def dictInsert {α β : Type} [DecidableEq α] (k : α) (v : β) :
    List (α × β) → List (α × β)
  | [] => [(k, v)]
  | (k0, v0) :: rest =>
    if k0 = k then (k0, v) :: rest else (k0, v0) :: dictInsert k v rest

/-! ## Namespace constants (common.py lines 32-48) -/

def nsXipRoot : String := "http://preservica.com/XIP/"
def nsEntityRoot : String := "http://preservica.com/EntityAPI/"
def nsRmRoot : String := "http://preservica.com/RetentionManagement/"
def nsSecRoot : String := "http://preservica.com/SecurityAPI"
def nsAdmin : String := "http://preservica.com/AdminAPI"
def nsXipV6 : String := "http://preservica.com/XIP/v6.0"
def nsEntityV6 : String := "http://preservica.com/EntityAPI/v6.0"

def ioPath : String := "information-objects"
def soPath : String := "structural-objects"
def coPath : String := "content-objects"

/-! ## Errors and data objects -/

/-- The exceptions the modelled code can raise.  `noReply` is not a Python
exception: it marks that the reply trace ended before the operation did. -/
inductive PyErr where
  | noReply
  | runtimeError (args : List String)
  | keyError (key : String)
  | attributeError
  | typeError
  | indexError
  | valueError
  | fileNotFound
  | fileExists
  | parseError
  deriving DecidableEq, Repr

/-- `EntityType` (common.py lines 275-281). -/
inductive EntityType where
  | asset
  | folder
  | contentObject
  deriving DecidableEq, Repr

def EntityType.value : EntityType → String
  | .asset => "IO"
  | .folder => "SO"
  | .contentObject => "CO"

def EntityType.path : EntityType → String
  | .asset => ioPath
  | .folder => soPath
  | .contentObject => coPath

/-- The fields of `common.Entity` (and its subclasses `Asset`, `Folder`,
`ContentObject`).  Attribute values coming from XML text are optional, as in
the source (`Element.text` may be `None`). -/
structure PEntity where
  reference : Option String
  title : Option String
  description : Option String
  securityTag : Option String
  parent : Option String
  metadata : List (Option String × String)
  entityType : EntityType
  deriving DecidableEq, Repr

/-- `common.Bitstream`: `length` is `int(length)` from the constructor. -/
structure PBitstream where
  filename : Option String
  length : Int
  fixity : List (Option String × Option String)
  contentUrl : Option String
  deriving DecidableEq, Repr

/-- `common.Generation`. -/
structure PGeneration where
  original : Bool
  active : Bool
  contentObject : Option PEntity
  formatGroup : Option String
  effectiveDate : Option String
  bitstreams : List PBitstream
  deriving DecidableEq, Repr

/-- `common.Representation`. -/
structure PRepresentation where
  asset : PEntity
  repType : String
  name : String
  url : Option String
  deriving DecidableEq, Repr

/-- `EntityAPI.content_objects` returns content objects with
`representation_type` and `asset` filled in. -/
structure PContentObject where
  entity : PEntity
  representationType : Option String
  asset : PEntity
  deriving DecidableEq, Repr

/-- `common.PagedSet` (total is `int(total)` in the constructor). -/
structure PPagedSet where
  results : List PEntity
  hasMore : Bool
  total : Int
  nextPage : Option String
  deriving DecidableEq, Repr

/-- Python `int(s)` on a string: strip whitespace, optional sign, digits.
`none` models the `ValueError`. -/
def pyIntOfString (s : String) : Option Int :=
  let cs := pyStrip s.data
  let core : Option (Bool × List Char) :=
    match cs with
    | '-' :: rest => some (true, rest)
    | '+' :: rest => some (false, rest)
    | rest => some (false, rest)
  match core with
  | some (neg, ds) =>
    if ds.isEmpty ∨ ¬ ds.all Char.isDigit then none
    else
      let n := ds.foldl (fun acc c => acc * 10 + (c.toNat - '0'.toNat)) 0
      some (if neg then -(n : Int) else (n : Int))
  | none => none

/-- Python `bool(s)` on a string value: any non-empty string is true. -/
def pyBoolOfString (s : String) : Bool := !s.isEmpty

/-! ## The authenticated client and the reply trace -/

/-- The attributes of an `AuthenticatedAPI` object that the modelled
operations read or write.  Attributes first assigned by
`__version_number__` / `__version_namespace__` are `Option`s: `none` models
"attribute not set" (reading it in Python would raise `AttributeError`). -/
structure ClientState where
  server : String
  username : String
  password : String
  tenant : Option String
  token : String
  sharedSecret : Bool
  majorVersion : Int
  minorVersion : Int
  patchVersion : Int
  version : Option String
  xipNs : Option String
  entityNs : Option String
  rmNs : Option String
  secNs : Option String
  adminNs : Option String
  deriving DecidableEq, Repr

/-- One server reply.  The entity endpoints answer with XML bodies, the
access-token endpoint with JSON fields, and the version endpoint's body is
scanned as a raw string by the source. -/
inductive Reply where
  | xmlReply (status : Nat) (body : XmlNode)
  | jsonReply (status : Nat) (fields : List (String × String))
  | rawReply (status : Nat) (body : String)
  deriving DecidableEq, Repr

/-- The outcome of one operation run against a reply trace: the Python
return value (or exception), the final client state, the replies left
unconsumed, and how many entity-layer requests (`gets`) and token-refresh
requests (`refreshes`) were issued. -/
structure OpOut (α : Type) where
  result : Except PyErr α
  state : ClientState
  rest : List Reply
  gets : Nat
  refreshes : Nat

/-! ## `AuthenticatedAPI.__token__` (common.py lines 726-757) -/

/-- The POST request `__token__` builds.  `sha1Hex` stands for
`hashlib.sha1(...).hexdigest()` on the UTF-8 bytes of a string.  Values that
Python would send as `None` are `none`. -/
structure TokenRequest where
  url : String
  data : List (String × Option String)
  deriving DecidableEq, Repr

def tokenRequest (sha1Hex : String → String) (s : ClientState)
    (timestamp : Int) : TokenRequest :=
  if s.sharedSecret = false then
    { url := "https://" ++ s.server ++ "/api/accesstoken/login",
      data :=
        if s.tenant = none then
          [("username", some s.username), ("password", some s.password),
           ("includeUserDetails", some "true")]
        else
          [("username", some s.username), ("password", some s.password),
           ("tenant", s.tenant)] }
  else
    { url := "https://" ++ s.server ++ "/" ++ "api/accesstoken/acquire-external",
      data :=
        [("username", some s.username), ("tenant", s.tenant),
         ("timestamp", some (toString timestamp)),
         ("hash", some (sha1Hex ("preservica-external-auth" ++
            toString timestamp ++ s.username ++ s.password)))] }

/-- How `__token__` handles the reply to its POST: the new token and the
updated state.  In the password flow with an unknown tenant, a 200 reply
also stores `response.json()['tenant']` on the client. -/
def tokenStep (s : ClientState) (r : Reply) : Except PyErr (String × ClientState) :=
  if s.sharedSecret = false then
    match r with
    | .jsonReply status fields =>
      if status = 200 then
        if s.tenant = none then
          match fields.lookup "tenant" with
          | none => .error (.keyError "tenant")
          | some t =>
            match fields.lookup "token" with
            | none => .error (.keyError "token")
            | some tok => .ok (tok, { s with tenant := some t })
        else
          match fields.lookup "token" with
          | none => .error (.keyError "token")
          | some tok => .ok (tok, s)
      else
        .error (.runtimeError [toString status,
          "Failed to create a password based authentication token. Check your credentials are correct"])
    | _ => .error .typeError
  else
    match r with
    | .jsonReply status fields =>
      if status = 200 then
        match fields.lookup "token" with
        | none => .error (.keyError "token")
        | some tok => .ok (tok, s)
      else
        .error (.runtimeError [toString status,
          "Failed to create a shared secret authentication token. Check your credentials are correct"])
    | _ => .error .typeError

/-! ## `AuthenticatedAPI.entity_from_string` (common.py lines 640-659) -/

/-- The dictionary `entity_from_string` builds. -/
structure ParsedEntity where
  reference : Option String
  title : Option String
  description : Option String
  securityTag : Option String
  parent : Option String
  metadata : List (Option String × String)
  deriving DecidableEq, Repr

def entityFromString (xipNs entityNs : String) (doc : XmlNode) :
    Except PyErr ParsedEntity :=
  let ref? := doc.findDesc ⟨xipNs, "Ref"⟩
  let title? := doc.findDesc ⟨xipNs, "Title"⟩
  let sec? := doc.findDesc ⟨xipNs, "SecurityTag"⟩
  let descr? := doc.findDesc ⟨xipNs, "Description"⟩
  let parent? := doc.findDesc ⟨xipNs, "Parent"⟩
  let frags := doc.findallDescChild ⟨entityNs, "Metadata"⟩ ⟨entityNs, "Fragment"⟩
  match frags.foldlM (fun md f =>
      match f.attribs.lookup "schema" with
      | some sch => Except.ok (dictInsert f.text sch md)
      | none => Except.error (PyErr.keyError "schema")) [] with
  | .error e => .error e
  | .ok md =>
    match ref?, sec? with
    | some refE, some secE =>
      .ok { reference := refE.text,
            title := title?.bind XmlNode.text,
            description := descr?.bind XmlNode.text,
            securityTag := secE.text,
            parent := parent?.bind XmlNode.text,
            metadata := md }
    | _, _ => .error .attributeError

/-- `Asset(entity['reference'], ...)` from a parsed dictionary. -/
def mkAsset (e : ParsedEntity) : PEntity :=
  ⟨e.reference, e.title, e.description, e.securityTag, e.parent, e.metadata, .asset⟩

def mkFolder (e : ParsedEntity) : PEntity :=
  ⟨e.reference, e.title, e.description, e.securityTag, e.parent, e.metadata, .folder⟩

def mkContentObject (e : ParsedEntity) : PEntity :=
  ⟨e.reference, e.title, e.description, e.securityTag, e.parent, e.metadata, .contentObject⟩

/-! ## Entity read operations (entityAPI.py)

Each operation consumes one reply per HTTP request it issues.  Every
operation follows the same literal pattern around its request: check
`status_code == 200` (or its own success code) and parse, on
`status_code == 401` assign `self.token = self.__token__()` (consuming one
reply for the token POST) and recurse, otherwise raise.  The shared retry
skeleton is `runOp`; each operation supplies the handler for its non-401
replies, with the handler's `gets` counting only the extra sub-requests it
issues itself. -/

/-- The HTTP status of a reply (`request.status_code`). -/
def Reply.status : Reply → Nat
  | .xmlReply st _ => st
  | .jsonReply st _ => st
  | .rawReply st _ => st

/-- The shared request/retry skeleton: issue the request (consume one
reply); on 401 refresh the token via `tokenStep` (consume one more reply)
and recurse on the remaining trace; otherwise defer to the operation's
handler. -/
def runOp {α : Type} (handle : ClientState → Reply → List Reply → OpOut α) :
    ClientState → List Reply → OpOut α
  | s, [] => ⟨.error .noReply, s, [], 0, 0⟩
  | s, r :: rest =>
    if r.status = 401 then
      match rest with
      | [] => ⟨.error .noReply, s, [], 1, 0⟩
      | tr :: rest2 =>
        match tokenStep s tr with
        | .error e => ⟨.error e, s, rest2, 1, 1⟩
        | .ok (tok, s1) =>
          let o := runOp handle { s1 with token := tok } rest2
          ⟨o.result, o.state, o.rest, o.gets + 1, o.refreshes + 1⟩
    else
      let o := handle s r rest
      ⟨o.result, o.state, o.rest, o.gets + 1, o.refreshes⟩

/-- `EntityAPI.asset` (entityAPI.py lines 474-488): non-401 replies. -/
def assetHandle (reference : String) (s : ClientState) (r : Reply)
    (rest : List Reply) : OpOut PEntity :=
  match r with
  | .xmlReply status body =>
    if status = 200 then
      match entityFromString (s.xipNs.getD "") (s.entityNs.getD "") body with
      | .ok e => ⟨.ok (mkAsset e), s, rest, 0, 0⟩
      | .error err => ⟨.error err, s, rest, 0, 0⟩
    else if status = 404 then
      ⟨.error (.runtimeError [reference,
        "The requested reference is not found in the repository"]), s, rest, 0, 0⟩
    else
      ⟨.error (.runtimeError [toString status, "asset failed for " ++ reference]),
        s, rest, 0, 0⟩
  | _ => ⟨.error .parseError, s, rest, 0, 0⟩

/-- `EntityAPI.asset` (entityAPI.py lines 474-488). -/
def assetOp (s : ClientState) (reference : String) (trace : List Reply) :
    OpOut PEntity :=
  runOp (assetHandle reference) s trace

/-- `EntityAPI.folder` (entityAPI.py lines 490-504): non-401 replies. -/
def folderHandle (reference : String) (s : ClientState) (r : Reply)
    (rest : List Reply) : OpOut PEntity :=
  match r with
  | .xmlReply status body =>
    if status = 200 then
      match entityFromString (s.xipNs.getD "") (s.entityNs.getD "") body with
      | .ok e => ⟨.ok (mkFolder e), s, rest, 0, 0⟩
      | .error err => ⟨.error err, s, rest, 0, 0⟩
    else if status = 404 then
      ⟨.error (.runtimeError [reference,
        "The requested reference is not found in the repository"]), s, rest, 0, 0⟩
    else
      ⟨.error (.runtimeError [toString status, "folder failed for " ++ reference]),
        s, rest, 0, 0⟩
  | _ => ⟨.error .parseError, s, rest, 0, 0⟩

/-- `EntityAPI.folder` (entityAPI.py lines 490-504). -/
def folderOp (s : ClientState) (reference : String) (trace : List Reply) :
    OpOut PEntity :=
  runOp (folderHandle reference) s trace

/-- `EntityAPI.content_object` (entityAPI.py lines 506-520): non-401
replies. -/
def contentObjectHandle (reference : String) (s : ClientState) (r : Reply)
    (rest : List Reply) : OpOut PEntity :=
  match r with
  | .xmlReply status body =>
    if status = 200 then
      match entityFromString (s.xipNs.getD "") (s.entityNs.getD "") body with
      | .ok e => ⟨.ok (mkContentObject e), s, rest, 0, 0⟩
      | .error err => ⟨.error err, s, rest, 0, 0⟩
    else if status = 404 then
      ⟨.error (.runtimeError [reference,
        "The requested reference is not found in the repository"]), s, rest, 0, 0⟩
    else
      ⟨.error (.runtimeError [toString status,
        "content_object failed for " ++ reference]), s, rest, 0, 0⟩
  | _ => ⟨.error .parseError, s, rest, 0, 0⟩

/-- `EntityAPI.content_object` (entityAPI.py lines 506-520). -/
def contentObjectOp (s : ClientState) (reference : String)
    (trace : List Reply) : OpOut PEntity :=
  runOp (contentObjectHandle reference) s trace

/-- `EntityAPI.metadata` (entityAPI.py lines 453-464): the result is the
first child of the `Content` element (`tostring` serialisation abstracted
as the node itself). -/
def metadataHandle (uri : String) (s : ClientState) (r : Reply)
    (rest : List Reply) : OpOut XmlNode :=
  match r with
  | .xmlReply status body =>
    if status = 200 then
      match body.findDesc ⟨nsXipV6, "Content"⟩ with
      | none => ⟨.error .typeError, s, rest, 0, 0⟩
      | some content =>
        match content.children.head? with
        | none => ⟨.error .indexError, s, rest, 0, 0⟩
        | some c => ⟨.ok c, s, rest, 0, 0⟩
    else
      ⟨.error (.runtimeError [toString status, "metadata failed for " ++ uri]),
        s, rest, 0, 0⟩
  | _ => ⟨.error .parseError, s, rest, 0, 0⟩

/-- `EntityAPI.metadata` (entityAPI.py lines 453-464). -/
def metadataOp (s : ClientState) (uri : String) (trace : List Reply) :
    OpOut XmlNode :=
  runOp (metadataHandle uri) s trace

/-- The per-`Child` constructor loop of `EntityAPI.children`
(entityAPI.py lines 670-676). -/
def childrenEntities (folderReference : Option String) :
    List XmlNode → Except PyErr (List PEntity)
  | [] => .ok []
  | c :: cs =>
    match c.attribs.lookup "type" with
    | none => .error (.keyError "type")
    | some ty =>
      match c.attribs.lookup "ref", c.attribs.lookup "title" with
      | some ref, some title =>
        let e : PEntity :=
          if ty = EntityType.folder.value then
            ⟨some ref, some title, none, none, folderReference, [], .folder⟩
          else
            ⟨some ref, some title, none, none, folderReference, [], .asset⟩
        (childrenEntities folderReference cs).map (fun es => e :: es)
      | none, _ => .error (.keyError "ref")
      | _, none => .error (.keyError "title")

/-- `EntityAPI.children` (entityAPI.py lines 652-688): non-401 replies. -/
def childrenHandle (folderReference : Option String) (s : ClientState)
    (r : Reply) (rest : List Reply) : OpOut PPagedSet :=
  match r with
  | .xmlReply status body =>
    if status = 200 then
      let cs := body.findallDesc ⟨nsEntityV6, "Child"⟩
      let nextUrl := body.findDesc ⟨nsEntityV6, "Next"⟩
      let totalHits := body.findDesc ⟨nsEntityV6, "TotalResults"⟩
      match childrenEntities folderReference cs with
      | .error e => ⟨.error e, s, rest, 0, 0⟩
      | .ok result =>
        let hasMore := nextUrl ≠ none
        let url := nextUrl.bind XmlNode.text
        match totalHits with
        | none => ⟨.error .attributeError, s, rest, 0, 0⟩
        | some tot =>
          match tot.text with
          | none => ⟨.error .typeError, s, rest, 0, 0⟩
          | some t =>
            match pyIntOfString t with
            | none => ⟨.error .valueError, s, rest, 0, 0⟩
            | some n => ⟨.ok ⟨result, hasMore, n, url⟩, s, rest, 0, 0⟩
    else
      ⟨.error (.runtimeError [toString status, "children failed"]), s, rest, 0, 0⟩
  | _ => ⟨.error .parseError, s, rest, 0, 0⟩

/-- `EntityAPI.children` (entityAPI.py lines 652-688). -/
def childrenOp (s : ClientState) (folderReference : Option String)
    (maximum : Nat) (nextPage : Option String) (trace : List Reply) :
    OpOut PPagedSet :=
  runOp (childrenHandle folderReference) s trace

/-- The per-`Identifier` loop of `EntityAPI.identifiers_for_entity`
(entityAPI.py lines 195-202): each identifier starts with empty type and
value, overwritten by its `Type` / `Value` children. -/
def identifierPairs (ids : List XmlNode) : List (Option String × Option String) :=
  ids.map (fun idElem =>
    idElem.children.foldl (fun (acc : Option String × Option String) child =>
      let acc :=
        if child.tag = ⟨nsXipV6, "Type"⟩ then (child.text, acc.2) else acc
      if child.tag = ⟨nsXipV6, "Value"⟩ then (acc.1, child.text) else acc)
      (some "", some ""))

/-- `EntityAPI.identifiers_for_entity` (entityAPI.py lines 187-208):
non-401 replies.  The Python `set` of tuples is modelled as the list of
pairs in document order. -/
def identifiersForEntityHandle (s : ClientState) (r : Reply)
    (rest : List Reply) : OpOut (List (Option String × Option String)) :=
  match r with
  | .xmlReply status body =>
    if status = 200 then
      ⟨.ok (identifierPairs (body.findallDesc ⟨nsXipV6, "Identifier"⟩)),
        s, rest, 0, 0⟩
    else
      ⟨.error (.runtimeError [toString status, "identifiers_for_entity failed"]),
        s, rest, 0, 0⟩
  | _ => ⟨.error .parseError, s, rest, 0, 0⟩

/-- `EntityAPI.identifiers_for_entity` (entityAPI.py lines 187-208). -/
def identifiersForEntityOp (s : ClientState) (entity : PEntity)
    (trace : List Reply) : OpOut (List (Option String × Option String)) :=
  runOp identifiersForEntityHandle s trace

/-- The per-`Representation` loop of `EntityAPI.representations`
(entityAPI.py lines 624-626). -/
def representationList (asset : PEntity) :
    List XmlNode → Except PyErr (List PRepresentation)
  | [] => .ok []
  | r :: rs =>
    match r.attribs.lookup "type" with
    | none => .error (.keyError "type")
    | some ty =>
      match r.attribs.lookup "name" with
      | none => .error (.keyError "name")
      | some nm =>
        (representationList asset rs).map (fun l => ⟨asset, ty, nm, r.text⟩ :: l)

/-- `EntityAPI.representations` (entityAPI.py lines 614-632): non-401
replies. -/
def representationsHandle (asset : PEntity) (s : ClientState) (r : Reply)
    (rest : List Reply) : OpOut (Option (List PRepresentation)) :=
  match r with
  | .xmlReply status body =>
    if status = 200 then
      match representationList asset
          (body.findallDesc ⟨nsEntityV6, "Representation"⟩) with
      | .error e => ⟨.error e, s, rest, 0, 0⟩
      | .ok l => ⟨.ok (some l), s, rest, 0, 0⟩
    else
      ⟨.error (.runtimeError [toString status, "representations failed"]),
        s, rest, 0, 0⟩
  | _ => ⟨.error .parseError, s, rest, 0, 0⟩

/-- `EntityAPI.representations` (entityAPI.py lines 614-632): a non-`Asset`
argument short-circuits to `None` without any request. -/
def representationsOp (s : ClientState) (asset : PEntity)
    (trace : List Reply) : OpOut (Option (List PRepresentation)) :=
  if asset.entityType ≠ EntityType.asset then ⟨.ok none, s, trace, 0, 0⟩
  else runOp (representationsHandle asset) s trace

/-- The fixity dictionary loop of `EntityAPI.bitstream`
(entityAPI.py lines 580-581): `fixity[f[0].text] = f[1].text`. -/
def fixityPairs : List XmlNode →
    Except PyErr (List (Option String × Option String))
  | [] => .ok []
  | f :: fs =>
    match f.children with
    | a :: b :: _ =>
      (fixityPairs fs).map (fun l => dictInsert a.text b.text l.reverse |>.reverse)
    | _ => .error .indexError

/-- `EntityAPI.bitstream` (entityAPI.py lines 569-592): non-401 replies. -/
def bitstreamHandle (s : ClientState) (r : Reply) (rest : List Reply) :
    OpOut PBitstream :=
  match r with
  | .xmlReply status body =>
    if status = 200 then
      let filename := body.findDesc ⟨nsXipV6, "Filename"⟩
      let filesize := body.findDesc ⟨nsXipV6, "FileSize"⟩
      let fixities := body.findallDesc ⟨nsXipV6, "Fixity"⟩
      let content := body.findDesc ⟨nsEntityV6, "Content"⟩
      match fixityPairs fixities with
      | .error e => ⟨.error e, s, rest, 0, 0⟩
      | .ok fx =>
        -- Bitstream.__init__ applies int() to the FileSize text
        match filesize.bind XmlNode.text with
        | none => ⟨.error .typeError, s, rest, 0, 0⟩
        | some t =>
          match pyIntOfString t with
          | none => ⟨.error .valueError, s, rest, 0, 0⟩
          | some n =>
            ⟨.ok ⟨filename.bind XmlNode.text, n, fx, content.bind XmlNode.text⟩,
              s, rest, 0, 0⟩
    else
      ⟨.error (.runtimeError [toString status, "bitstream failed"]), s, rest, 0, 0⟩
  | _ => ⟨.error .parseError, s, rest, 0, 0⟩

/-- `EntityAPI.bitstream` (entityAPI.py lines 569-592). -/
def bitstreamOp (s : ClientState) (url : Option String) (trace : List Reply) :
    OpOut PBitstream :=
  runOp bitstreamHandle s trace

/-- The bitstream loop of `EntityAPI.generation` (entityAPI.py lines
554-556): one `bitstream` request per `Bitstream` element. -/
def runBitstreams (s : ClientState) (trace : List Reply) :
    List (Option String) → OpOut (List PBitstream)
  | [] => ⟨.ok [], s, trace, 0, 0⟩
  | u :: us =>
    let o := bitstreamOp s u trace
    match o.result with
    | .error e => ⟨.error e, o.state, o.rest, o.gets, o.refreshes⟩
    | .ok b =>
      let o2 := runBitstreams o.state o.rest us
      ⟨o2.result.map (fun bs => b :: bs), o2.state, o2.rest,
        o.gets + o2.gets, o.refreshes + o2.refreshes⟩

/-- `EntityAPI.generation` (entityAPI.py lines 544-567): non-401 replies.
The bitstream fetches run before the `Generation` object is constructed,
as in the source. -/
def generationHandle (s : ClientState) (r : Reply) (rest : List Reply) :
    OpOut PGeneration :=
  match r with
  | .xmlReply status body =>
    if status = 200 then
      let ge := body.findDesc ⟨nsXipV6, "Generation"⟩
      let formatGroup := body.findDesc ⟨nsXipV6, "FormatGroup"⟩
      let effectiveDate := body.findDesc ⟨nsXipV6, "EffectiveDate"⟩
      let bits := body.findallDesc ⟨nsEntityV6, "Bitstream"⟩
      let o := runBitstreams s rest (bits.map XmlNode.text)
      match o.result with
      | .error e => ⟨.error e, o.state, o.rest, o.gets, o.refreshes⟩
      | .ok bl =>
        match ge with
        | none => ⟨.error .attributeError, o.state, o.rest, o.gets, o.refreshes⟩
        | some geE =>
          match geE.attribs.lookup "original", geE.attribs.lookup "active" with
          | some og, some ac =>
            ⟨.ok ⟨pyBoolOfString og, pyBoolOfString ac, none,
                formatGroup.bind XmlNode.text, effectiveDate.bind XmlNode.text, bl⟩,
              o.state, o.rest, o.gets, o.refreshes⟩
          | none, _ =>
            ⟨.error (.keyError "original"), o.state, o.rest, o.gets, o.refreshes⟩
          | _, none =>
            ⟨.error (.keyError "active"), o.state, o.rest, o.gets, o.refreshes⟩
    else
      ⟨.error (.runtimeError [toString status, "generation failed"]), s, rest, 0, 0⟩
  | _ => ⟨.error .parseError, s, rest, 0, 0⟩

/-- `EntityAPI.generation` (entityAPI.py lines 544-567). -/
def generationOp (s : ClientState) (url : Option String) (trace : List Reply) :
    OpOut PGeneration :=
  runOp generationHandle s trace

/-- The generation loop of `EntityAPI.generations` (entityAPI.py lines
602-606): one `generation` request per listed `Generation` element, with
`content_object` set on each result. -/
def runGenerations (co : PEntity) (s : ClientState) (trace : List Reply) :
    List (Option String) → OpOut (List PGeneration)
  | [] => ⟨.ok [], s, trace, 0, 0⟩
  | u :: us =>
    let o := generationOp s u trace
    match o.result with
    | .error e => ⟨.error e, o.state, o.rest, o.gets, o.refreshes⟩
    | .ok g =>
      let o2 := runGenerations co o.state o.rest us
      ⟨o2.result.map (fun gs => { g with contentObject := some co } :: gs),
        o2.state, o2.rest, o.gets + o2.gets, o.refreshes + o2.refreshes⟩

/-- `EntityAPI.generations` (entityAPI.py lines 594-612): non-401 replies. -/
def generationsHandle (contentObject : PEntity) (s : ClientState) (r : Reply)
    (rest : List Reply) : OpOut (List PGeneration) :=
  match r with
  | .xmlReply status body =>
    if status = 200 then
      runGenerations contentObject s rest
        ((body.findallDesc ⟨nsEntityV6, "Generation"⟩).map XmlNode.text)
    else
      ⟨.error (.runtimeError [toString status, "generations failed"]), s, rest, 0, 0⟩
  | _ => ⟨.error .parseError, s, rest, 0, 0⟩

/-- `EntityAPI.generations` (entityAPI.py lines 594-612). -/
def generationsOp (s : ClientState) (contentObject : PEntity)
    (trace : List Reply) : OpOut (List PGeneration) :=
  runOp (generationsHandle contentObject) s trace

/-- The content-object loop of `EntityAPI.content_objects`
(entityAPI.py lines 532-536): one `content_object` request per listed
reference (`None` texts are formatted into the URL as the string
`"None"`). -/
def runContentObjects (rep : PRepresentation) (s : ClientState)
    (trace : List Reply) : List (Option String) → OpOut (List PContentObject)
  | [] => ⟨.ok [], s, trace, 0, 0⟩
  | u :: us =>
    let o := contentObjectOp s (u.getD "None") trace
    match o.result with
    | .error e => ⟨.error e, o.state, o.rest, o.gets, o.refreshes⟩
    | .ok co =>
      let o2 := runContentObjects rep o.state o.rest us
      ⟨o2.result.map (fun cos =>
          (⟨co, some rep.repType, rep.asset⟩ : PContentObject) :: cos),
        o2.state, o2.rest, o.gets + o2.gets, o.refreshes + o2.refreshes⟩

/-- `EntityAPI.content_objects` (entityAPI.py lines 522-542): non-401
replies. -/
def contentObjectsHandle (rep : PRepresentation) (s : ClientState) (r : Reply)
    (rest : List Reply) : OpOut (List PContentObject) :=
  match r with
  | .xmlReply status body =>
    if status = 200 then
      runContentObjects rep s rest
        ((body.findallDesc ⟨nsXipV6, "ContentObject"⟩).map XmlNode.text)
    else
      ⟨.error (.runtimeError [toString status, "content_objects failed"]),
        s, rest, 0, 0⟩
  | _ => ⟨.error .parseError, s, rest, 0, 0⟩

/-- `EntityAPI.content_objects` (entityAPI.py lines 522-542). -/
def contentObjectsOp (s : ClientState) (rep : PRepresentation)
    (trace : List Reply) : OpOut (List PContentObject) :=
  runOp (contentObjectsHandle rep) s trace

/-! ## Server version detection and namespace derivation (common.py) -/

/-- Python `hay.find(needle)`: index of the first occurrence, or `-1`. -/
def pyFindAux (needle : List Char) : List Char → Nat → Int
  | [], i => if needle = [] then (i : Int) else -1
  | h :: t, i => if needle.isPrefixOf (h :: t) then (i : Int) else pyFindAux needle t (i + 1)

def pyFind (hay needle : List Char) : Int := pyFindAux needle hay 0

/-- Python `l[i:j]` with possibly negative bounds. -/
def pySliceIJ (i j : Int) (l : List Char) : List Char :=
  let n : Int := (l.length : Int)
  let iN : Nat := (if i < 0 then max 0 (n + i) else min n i).toNat
  let jN : Nat := (if j < 0 then max 0 (n + j) else min n j).toNat
  (l.take jN).drop iN

/-- The `<CurrentVersion>` extraction of `__version_number__` (common.py
line 685): raw string search, not XML parsing. -/
def currentVersionOf (body : String) : List Char :=
  let cs := body.data
  pySliceIJ (pyFind cs "<CurrentVersion>".data + 16)
    (pyFind cs "</CurrentVersion>".data) cs

/-- `AuthenticatedAPI.__version_number__` (common.py lines 676-697):
non-401 replies.  The assignments to `major_version` / `minor_version` /
`patch_version` happen in order, so an `int()` failure can leave the state
partially updated.  On a non-200, non-401 reply the source constructs a
`RuntimeError` without raising it and falls through, returning `None`. -/
def versionNumberHandle (s : ClientState) (r : Reply) (rest : List Reply) :
    OpOut (Option String) :=
  match r with
  | .rawReply status body =>
    if status = 200 then
      let version := currentVersionOf body
      let versionNumbers := version.splitOnP (fun c => c == '.')
      match versionNumbers.head? with
      | none => ⟨.error .indexError, s, rest, 0, 0⟩
      | some v0 =>
        match pyIntOfString (String.mk v0) with
        | none => ⟨.error .valueError, s, rest, 0, 0⟩
        | some a =>
          let s1 := { s with majorVersion := a }
          match versionNumbers.drop 1 |>.head? with
          | none => ⟨.error .indexError, s1, rest, 0, 0⟩
          | some v1 =>
            match pyIntOfString (String.mk v1) with
            | none => ⟨.error .valueError, s1, rest, 0, 0⟩
            | some b =>
              let s2 := { s1 with minorVersion := b }
              match versionNumbers.drop 2 |>.head? with
              | none => ⟨.error .indexError, s2, rest, 0, 0⟩
              | some v2 =>
                match pyIntOfString (String.mk v2) with
                | none => ⟨.error .valueError, s2, rest, 0, 0⟩
                | some c =>
                  ⟨.ok (some (String.mk version)),
                    { s2 with patchVersion := c }, rest, 0, 0⟩
    else ⟨.ok none, s, rest, 0, 0⟩
  | _ => ⟨.error .parseError, s, rest, 0, 0⟩

/-- `AuthenticatedAPI.__version_number__` (common.py lines 676-697). -/
def versionNumberOp (s : ClientState) (trace : List Reply) :
    OpOut (Option String) :=
  runOp versionNumberHandle s trace

/-- `AuthenticatedAPI.__version_namespace__` (common.py lines 661-674),
verbatim: only a major version equal to 6 assigns any namespace
attribute. -/
def versionNamespace (s : ClientState) : ClientState :=
  if s.majorVersion = 6 then
    if s.minorVersion < 2 then
      { s with xipNs := some nsXipV6, entityNs := some nsEntityV6 }
    else
      { s with
        xipNs := some (nsXipRoot ++ "v" ++ toString s.majorVersion ++ "." ++
          toString s.minorVersion),
        entityNs := some (nsEntityRoot ++ "v" ++ toString s.majorVersion ++ "." ++
          toString s.minorVersion),
        rmNs := some (nsRmRoot ++ "v" ++ toString s.majorVersion ++ "." ++ "2"),
        secNs := some (nsSecRoot ++ "/v" ++ toString s.majorVersion ++ "." ++
          toString s.minorVersion),
        adminNs := some (nsAdmin ++ "/v" ++ toString s.majorVersion ++ "." ++
          toString s.minorVersion) }
  else s

/-! ## Credential resolution in `AuthenticatedAPI.__init__`
(common.py lines 759-824) -/

/-- Python truthiness of an optional `String`. -/
def pyTruthyS : Option String → Bool
  | none => false
  | some s => !s.isEmpty

/-- One credential's resolution as coded (e.g. common.py lines 767-773 for
the username): keep a truthy explicit argument; otherwise take
`os.environ.get(...)` (which blocks the config file whenever the variable
is set, even to the empty string); otherwise the config-file entry if the
key exists. -/
def pyResolve (arg env cfg : Option String) : Option String :=
  let v1 := if pyTruthyS arg then arg else env
  if v1 = none then cfg else v1

/-- The specification's wording: the first value found among the argument
(found = truthy), the environment variable (found = set) and the
credentials file (found = key present). -/
def specFirstFound (arg env cfg : Option String) : Option String :=
  if pyTruthyS arg then arg
  else if env ≠ none then env
  else cfg

/-- What the constructor stores after resolution. -/
structure ResolvedCredentials where
  username : String
  password : String
  tenant : Option String
  server : String
  deriving DecidableEq, Repr

/-- The resolution part of `AuthenticatedAPI.__init__` (common.py lines
767-819): username, password, tenant and server are resolved in this
order; username, password and server raise `RuntimeError` when the
resolved value is falsy, tenant is kept as-is (possibly `None`). -/
def initResolveCredentials (usernameArg passwordArg tenantArg serverArg : Option String)
    (env : String → Option String) (cfg : String → Option String) :
    Except PyErr ResolvedCredentials :=
  let u := pyResolve usernameArg (env "PRESERVICA_USERNAME") (cfg "username")
  if ¬ pyTruthyS u then
    .error (.runtimeError
      ["No valid username found in method arguments, environment variables or credentials.properties file"])
  else
    let p := pyResolve passwordArg (env "PRESERVICA_PASSWORD") (cfg "password")
    if ¬ pyTruthyS p then
      .error (.runtimeError
        ["No valid password found in method arguments, environment variables or credentials.properties file"])
    else
      let t := pyResolve tenantArg (env "PRESERVICA_TENANT") (cfg "tenant")
      let sv := pyResolve serverArg (env "PRESERVICA_SERVER") (cfg "server")
      if ¬ pyTruthyS sv then
        .error (.runtimeError
          ["No valid server found in method arguments, environment variables or credentials.properties file"])
      else
        .ok { username := u.getD "", password := p.getD "",
              tenant := t, server := sv.getD "" }

/-! ## Filesystem model for the package builders (uploadAPI.py)

Paths are component lists.  File contents are either raw bytes, an XML
document (serialisation through `prettify` / `ElementTree.parse` is
abstracted as the tree itself), or a zip archive holding the
root-relative entries that `shutil.make_archive` would store. -/

abbrev FsPath := List String

inductive FileData where
  | bytes (content : String)
  | xmlDoc (x : XmlNode)
  | zipArchive (entries : List (FsPath × FileData))

instance : Repr FileData := ⟨fun _ _ => Std.Format.text "<filedata>"⟩

instance : Inhabited FileData := ⟨.bytes ""⟩

/-- `os.stat(...).st_size`, as far as the model needs it. -/
def FileData.size : FileData → Nat
  | .bytes s => s.length
  | .xmlDoc _ => 0
  | .zipArchive es => es.length

structure FS where
  dirs : List FsPath
  files : List (FsPath × FileData)

def fsIsDir (fs : FS) (p : FsPath) : Bool := fs.dirs.contains p

def fsLookupFile (fs : FS) (p : FsPath) : Option FileData := fs.files.lookup p

def fsIsFile (fs : FS) (p : FsPath) : Bool := (fsLookupFile fs p).isSome

/-- `os.mkdir`: the parent must exist, the path must not. -/
def fsMkdir (fs : FS) (p : FsPath) : Except PyErr FS :=
  if fsIsDir fs p ∨ fsIsFile fs p then .error .fileExists
  else if ¬ fsIsDir fs p.dropLast then .error .fileNotFound
  else .ok { fs with dirs := p :: fs.dirs }

/-- `open(p, "wt").write(d)`: create or overwrite. -/
def fsWrite (fs : FS) (p : FsPath) (d : FileData) : FS :=
  { fs with files := dictInsert p d fs.files }

/-- `shutil.copyfile`. -/
def fsCopyFile (fs : FS) (src dst : FsPath) : Except PyErr FS :=
  match fsLookupFile fs src with
  | none => .error .fileNotFound
  | some d => .ok (fsWrite fs dst d)

/-- The files under `root`, with root-relative paths, in store order. -/
def fsFilesUnder (fs : FS) (root : FsPath) : List (FsPath × FileData) :=
  (fs.files.filter (fun e => root.isPrefixOf e.1)).map
    (fun e => (e.1.drop root.length, e.2))

/-- The path `base_name + ".zip"` of `shutil.make_archive`. -/
def zipPathOf (base : FsPath) : FsPath :=
  base.dropLast ++ [base.getLastD "" ++ ".zip"]

/-- `shutil.make_archive(base, 'zip', root)` (and the `'szip'` uncompressed
variant, which stores the same entries). -/
def fsMakeArchive (fs : FS) (base root : FsPath) : FS :=
  fsWrite fs (zipPathOf base) (.zipArchive (fsFilesUnder fs root))

/-- `shutil.rmtree p`: remove the directory and everything below it. -/
def fsRmtree (fs : FS) (p : FsPath) : FS :=
  { dirs := fs.dirs.filter (fun d => ¬ p.isPrefixOf d),
    files := fs.files.filter (fun e => ¬ p.isPrefixOf e.1) }

/-- `os.path.basename` of a component path. -/
def fsBasename (p : FsPath) : String := p.getLastD ""

/-- The root part of `os.path.splitext` on a basename: cut at the last dot
unless every character before it is a dot. -/
def pySplitextRoot (s : String) : String :=
  let cs := s.data
  match ((cs.enum.filter (fun e => e.2 = '.')).getLast?.map (fun e => e.1)) with
  | none => s
  | some d => if (cs.take d).any (fun c => c ≠ '.') then String.mk (cs.take d) else s

/-! ## XIP tree builders (uploadAPI.py lines 96-220)

Each `__make_*__` helper appends one fully-built element to the `XIP`
root; the model builds those elements purely and keeps the root's child
list.  Plain (namespace-less) tags use an empty `QName.ns`. -/

/-- Unqualified tag. -/
def uq (name : String) : QName := ⟨"", name⟩

/-- A leaf element with only a text payload. -/
def leaf (name : String) (text : Option String) : XmlNode :=
  .elem (uq name) [] text []

/-- The `XIP` root element with its `xmlns` attribute. -/
def xipRoot (children : List XmlNode) : XmlNode :=
  .elem (uq "XIP") [("xmlns", nsXipV6)] none children

/-- The `parent_folder` argument: an entity-like object with a `reference`
attribute, or a plain string. -/
inductive ParentArg where
  | entity (reference : Option String)
  | strRef (s : String)
  deriving DecidableEq, Repr

def ParentArg.text : ParentArg → Option String
  | .entity r => r
  | .strRef s => some s

/-- The result of a fixity callback: the tuple and dict shapes accepted by
`__make_bitstream__`. -/
inductive FixityResult where
  | tup (alg value : String)
  | multi (entries : List (String × String))
  deriving DecidableEq, Repr

/-- One `Asset_Metadata` value: either a filesystem path (the
`os.path.exists and os.path.isfile` branch) or a string that parses as an
XML document (the `isinstance(metadata_path, str)` branch). -/
inductive MetaSource where
  | fsPath (p : FsPath)
  | xmlString (x : XmlNode)

/-- Python truthiness of a metadata value (`if metadata_path:`). -/
def MetaSource.truthy : MetaSource → Bool
  | .fsPath p => !p.isEmpty
  | .xmlString _ => true

/-- The keyword arguments of the package builders that the model covers.
Titles and descriptions are modelled in their string form (the source also
accepts per-file dictionaries for the content titles). -/
structure PackageKwargs where
  ioIdentifier : Option String := none
  title : Option String := none
  description : Option String := none
  securityTag : Option String := none
  customType : Option String := none
  presContentTitle : Option String := none
  presContentDescription : Option String := none
  accessContentTitle : Option String := none
  accessContentDescription : Option String := none
  presGenerationLabel : Option String := none
  accessGenerationLabel : Option String := none
  identifiers : Option (List (String × String)) := none
  assetMetadata : Option (List (String × MetaSource)) := none
  presRepresentationName : Option String := none
  accessRepresentationName : Option String := none
  presFixityCallback : Option (String → FsPath → FixityResult) := none
  accessFixityCallback : Option (String → FsPath → FixityResult) := none

/-- `__create_io__` (uploadAPI.py lines 96-125) for a fresh tree: the
`InformationObject` child of the new `XIP` root, `ref.text`, and the
advanced uuid counter (`str(uuid.uuid4())` is drawn from `refs` only when
no `IO_Identifier_callback` is given). -/
def createIo (refs : Nat → String) (k : Nat) (fileName : Option String)
    (parentFolder : Option ParentArg) (kw : PackageKwargs) :
    XmlNode × String × Nat :=
  let refChoice : String × Nat :=
    match kw.ioIdentifier with
    | some cb => (cb, k)
    | none => (refs k, k + 1)
  let refText := refChoice.1
  let parentText : Option String := parentFolder.bind ParentArg.text
  (.elem (uq "InformationObject") [] none [
      leaf "Ref" (some refText),
      leaf "Title" (kw.title <|> fileName),
      leaf "Description" (kw.description <|> fileName),
      leaf "SecurityTag" (some (kw.securityTag.getD "open")),
      leaf "CustomType" (some (kw.customType.getD "")),
      leaf "Parent" parentText],
   refText, refChoice.2)

/-- `__make_representation_multiple_co__` (uploadAPI.py lines 205-220):
the `Representation` element, the `refs_dict` of (content-object ref, file)
pairs in insertion order, and the advanced uuid counter. -/
def makeRepresentationMultipleCo (refs : Nat → String) (k : Nat)
    (repName repType : String) (repFiles : List FsPath) (ioRef : Option String) :
    XmlNode × List (String × FsPath) × Nat :=
  let pairs := repFiles.enum.map (fun e => (refs (k + e.1), e.2))
  (.elem (uq "Representation") [] none [
      leaf "InformationObject" ioRef,
      leaf "Name" (some repName),
      leaf "Type" (some repType),
      .elem (uq "ContentObjects") [] none
        (pairs.map (fun pr => leaf "ContentObject" (some pr.1)))],
   pairs, k + repFiles.length)

/-- `__make_content_objects__` (uploadAPI.py lines 143-156). -/
def makeContentObjects (contentTitle : Option String) (coRef : String)
    (ioRef : Option String) (tag : String) (contentDescription : Option String)
    (contentType : String) : XmlNode :=
  .elem (uq "ContentObject") [] none [
    leaf "Ref" (some coRef),
    leaf "Title" contentTitle,
    leaf "Description" contentDescription,
    leaf "SecurityTag" (some tag),
    leaf "CustomType" (some contentType),
    leaf "Parent" ioRef]

/-- `__make_generation__` (uploadAPI.py lines 159-174); `now` stands for
`datetime.now().isoformat()`. -/
def makeGeneration (now : String) (filename : String) (coRef : String)
    (generationLabel : String) : XmlNode :=
  .elem (uq "Generation") [("original", "true"), ("active", "true")] none [
    leaf "ContentObject" (some coRef),
    leaf "Label" (some (if pyBoolOfString generationLabel then generationLabel
      else pySplitextRoot filename)),
    leaf "EffectiveDate" (some now),
    .elem (uq "Bitstreams") [] none [leaf "Bitstream" (some filename)],
    .elem (uq "Formats") [] none [],
    .elem (uq "Properties") [] none []]

/-- `__make_bitstream__` (uploadAPI.py lines 177-202): stats the file and
runs the fixity callback. -/
def makeBitstream (fs : FS) (fileName : String) (fullPath : FsPath)
    (callback : String → FsPath → FixityResult) : Except PyErr XmlNode :=
  match fsLookupFile fs fullPath with
  | none => .error .fileNotFound
  | some d =>
    let fixities : List XmlNode :=
      match callback fileName fullPath with
      | .tup alg value =>
        [.elem (uq "Fixity") [] none
          [leaf "FixityAlgorithmRef" (some alg), leaf "FixityValue" (some value)]]
      | .multi entries =>
        entries.map (fun e =>
          .elem (uq "Fixity") [] none
            [leaf "FixityAlgorithmRef" (some e.1), leaf "FixityValue" (some e.2)])
    .ok (.elem (uq "Bitstream") [] none [
      leaf "Filename" (some fileName),
      leaf "FileSize" (some (toString d.size)),
      leaf "PhysicalLocation" none,
      .elem (uq "Fixities") [] none fixities])

/-! ## `complex_asset_package` (uploadAPI.py lines 810-1047) -/

/-- The bitstream loop over a refs-dict (uploadAPI.py lines 968-970 /
979-981): one `__make_bitstream__` per (content ref, file) pair. -/
def bitstreamStage (fs : FS) (callback : String → FsPath → FixityResult) :
    List (String × FsPath) → Except PyErr (List XmlNode)
  | [] => .ok []
  | (_, f) :: rest => do
    let b ← makeBitstream fs (fsBasename f) f callback
    let l ← bitstreamStage fs callback rest
    return b :: l

/-- The `Identifiers` loop (uploadAPI.py lines 983-994): each pair with a
truthy key and value appends an `Identifier` element to `xip`; if `xip` is
`None` at that point, `SubElement(None, ...)` raises `AttributeError`. -/
def identifierStage (ioRef : Option String) (xipSet : Bool) :
    List (String × String) → Except PyErr (List XmlNode)
  | [] => .ok []
  | (k, v) :: rest =>
    if pyBoolOfString k ∧ pyBoolOfString v then
      if ¬ xipSet then .error .attributeError
      else do
        let l ← identifierStage ioRef xipSet rest
        return .elem (uq "Identifier") [] none
          [leaf "Type" (some k), leaf "Value" (some v), leaf "Entity" ioRef] :: l
    else identifierStage ioRef xipSet rest

/-- One `Metadata` element (uploadAPI.py lines 1003-1009). -/
def metadataElem (ns ref : String) (ioRef : Option String) (x : XmlNode) : XmlNode :=
  .elem (uq "Metadata") [("schemaUri", ns)] none
    [leaf "Ref" (some ref), leaf "Entity" ioRef, .elem (uq "Content") [] none [x]]

/-- The `Asset_Metadata` loop (uploadAPI.py lines 996-1021).  A value that
is an existing file is parsed (`ParseError` on non-XML contents); a
non-existing path falls into the `isinstance(str)` branch whose
`fromstring` fails with an uncaught `ParseError` (`except` only catches
`RuntimeError`); appending to an absent tree raises `AttributeError`. -/
def metadataStage (refs : Nat → String) (k : Nat) (ioRef : Option String)
    (xipSet : Bool) (fs : FS) :
    List (String × MetaSource) → Except PyErr (List XmlNode × Nat)
  | [] => .ok ([], k)
  | (ns, src) :: rest =>
    if pyBoolOfString ns ∧ src.truthy then
      match src with
      | .fsPath p =>
        if fsIsFile fs p then
          match fsLookupFile fs p with
          | some (.xmlDoc x) =>
            if ¬ xipSet then .error .attributeError
            else do
              let (l, k1) ← metadataStage refs (k + 1) ioRef xipSet fs rest
              return (metadataElem ns (refs k) ioRef x :: l, k1)
          | _ => .error .parseError
        else .error .parseError
      | .xmlString x =>
        if ¬ xipSet then .error .attributeError
        else do
          let (l, k1) ← metadataStage refs (k + 1) ioRef xipSet fs rest
          return (metadataElem ns (refs k) ioRef x :: l, k1)
    else metadataStage refs k ioRef xipSet fs rest

/-- The copy loop (uploadAPI.py lines 1034-1041): copy each input file into
the staging `content` directory under its basename. -/
def copyStage (contentDir : FsPath) (fs : FS) :
    List (String × FsPath) → Except PyErr FS
  | [] => .ok fs
  | (_, f) :: rest => do
    let fs1 ← fsCopyFile fs f (contentDir ++ [fsBasename f])
    copyStage contentDir fs1 rest

/-- The intermediate build state of a package function: the `XIP` root's
children (`none` models `xip = None`), `io_ref`, the uuid counter, and
`default_asset_title`. -/
structure BuildSt where
  xip : Option (List XmlNode)
  ioRef : Option String
  k : Nat
  defaultTitle : Option String

/-- The staging / archive / cleanup tail shared verbatim by
`complex_asset_package` (lines 1023-1047) and `generic_asset_package`
(lines 633-661): make the staging directories named after `io_ref`, write
`metadata.xml`, copy the input files into `content`, zip the staging
directory, remove it, and return the zip path. -/
def packageStaging (exportF : FsPath) (ioRefStr : String)
    (children : List XmlNode) (presPairs accessPairs : List (String × FsPath))
    (fs : FS) : Except PyErr (Option FsPath × FS) := do
  let top := exportF ++ [ioRefStr]
  let inner := top ++ [ioRefStr]
  let fs1 ← fsMkdir fs top
  let fs2 ← fsMkdir fs1 inner
  let fs3 ← fsMkdir fs2 (inner ++ ["content"])
  let fs4 := fsWrite fs3 (inner ++ ["metadata.xml"]) (.xmlDoc (xipRoot children))
  let fs5 ← copyStage (inner ++ ["content"]) fs4 presPairs
  let fs6 ← copyStage (inner ++ ["content"]) fs5 accessPairs
  let fs7 := fsMakeArchive fs6 top top
  return (some (zipPathOf top), fsRmtree fs7 top)

/-- `complex_asset_package` (uploadAPI.py lines 810-1047).  `refs` supplies
the successive `str(uuid.uuid4())` draws, `now` the
`datetime.now().isoformat()` stamp, `sha1Fixity` the default
`Sha1FixityCallBack`, and `tempDir` the `tempfile.gettempdir()` fallback.
The returned value is `None` or the zip path, with the final filesystem. -/
def complexAssetPackage (refs : Nat → String) (now : String)
    (sha1Fixity : String → FsPath → FixityResult) (tempDir : FsPath)
    (preservationFilesList accessFilesList : Option (List FsPath))
    (exportFolder : Option FsPath) (parentFolder : Option ParentArg)
    (compress : Bool) (kw : PackageKwargs) (fs : FS) :
    Except PyErr (Option FsPath × FS) :=
  let exportF := exportFolder.getD tempDir
  if ¬ fsIsDir fs exportF then
    .error (.runtimeError ["Export Folder Does Not Exist"])
  else if parentFolder = none then
    .error (.runtimeError ["You must specify a parent folder for the package asset"])
  else
    let presList := preservationFilesList.getD []
    let accessList := accessFilesList.getD []
    let hasPres := !presList.isEmpty
    let hasAccess := !accessList.isEmpty
    let securityTag := kw.securityTag.getD "open"
    let contentType := kw.customType.getD ""
    -- asset creation (lines 884-896)
    let st1 : BuildSt :=
      if hasPres then
        let t := pySplitextRoot (fsBasename (presList.headD []))
        let io := createIo refs 0 (some t) parentFolder kw
        ⟨some [io.1], some io.2.1, io.2.2, some t⟩
      else ⟨none, none, 0, none⟩
    let st2 : BuildSt :=
      if hasAccess then
        let t := st1.defaultTitle.getD
          (pySplitextRoot (fsBasename (accessList.headD [])))
        if st1.ioRef = none then
          let io := createIo refs st1.k (some t) parentFolder kw
          ⟨some [io.1], some io.2.1, io.2.2, some t⟩
        else { st1 with defaultTitle := some t }
      else st1
    -- representations (lines 898-909)
    let presRep :=
      if hasPres then
        let repName := kw.presRepresentationName.getD "Preservation"
        let r := makeRepresentationMultipleCo refs st2.k repName "Preservation"
          presList st2.ioRef
        ([r.1], r.2.1, r.2.2)
      else (([] : List XmlNode), ([] : List (String × FsPath)), st2.k)
    let presPairs := presRep.2.1
    let accessRep :=
      if hasAccess then
        let repName := kw.accessRepresentationName.getD "Access"
        let r := makeRepresentationMultipleCo refs presRep.2.2 repName "Access"
          accessList st2.ioRef
        ([r.1], r.2.1, r.2.2)
      else (([] : List XmlNode), ([] : List (String × FsPath)), presRep.2.2)
    let accessPairs := accessRep.2.1
    let kAfterReps := accessRep.2.2
    -- content objects (lines 911-943)
    let presCos := presPairs.map (fun pr =>
      let dt := pySplitextRoot (fsBasename pr.2)
      makeContentObjects (some (kw.presContentTitle.getD dt)) pr.1 st2.ioRef
        securityTag (some (kw.presContentDescription.getD dt)) contentType)
    let accessCos := accessPairs.map (fun pr =>
      let dt := pySplitextRoot (fsBasename pr.2)
      makeContentObjects (some (kw.accessContentTitle.getD dt)) pr.1 st2.ioRef
        securityTag (some (kw.accessContentDescription.getD dt)) contentType)
    -- generations (lines 945-959)
    let presGens := presPairs.map (fun pr =>
      makeGeneration now (fsBasename pr.2) pr.1 (kw.presGenerationLabel.getD ""))
    let accessGens := accessPairs.map (fun pr =>
      makeGeneration now (fsBasename pr.2) pr.1 (kw.accessGenerationLabel.getD ""))
    do
      -- bitstreams (lines 961-981)
      let presBits ← bitstreamStage fs (kw.presFixityCallback.getD sha1Fixity) presPairs
      let accessBits ← bitstreamStage fs (kw.accessFixityCallback.getD sha1Fixity) accessPairs
      -- identifiers and metadata (lines 983-1021)
      let identElems ←
        match kw.identifiers with
        | none => pure []
        | some m => identifierStage st2.ioRef st2.xip.isSome m
      let metaOut ←
        match kw.assetMetadata with
        | none => pure (([] : List XmlNode), kAfterReps)
        | some m => metadataStage refs kAfterReps st2.ioRef st2.xip.isSome fs m
      let xipFinal := st2.xip.map (fun c =>
        c ++ presRep.1 ++ accessRep.1 ++ presCos ++ accessCos ++
        presGens ++ accessGens ++ presBits ++ accessBits ++ identElems ++ metaOut.1)
      -- staging, archiving, cleanup (lines 1023-1047)
      match xipFinal with
      | none => return (none, fs)
      | some children =>
        packageStaging exportF (st2.ioRef.getD "") children presPairs accessPairs fs

/-! ## `generic_asset_package` (uploadAPI.py lines 462-661) -/

/-- The per-representation loop of `generic_asset_package` (lines 509-523):
one `Representation` element per dictionary key, keeping each key's
refs-dict. -/
def makeRepsDict (refs : Nat → String) (k : Nat) (repType : String)
    (ioRef : Option String) :
    List (String × List FsPath) →
      List XmlNode × List (String × List (String × FsPath)) × Nat
  | [] => ([], [], k)
  | (name, files) :: rest =>
    let r := makeRepresentationMultipleCo refs k name repType files ioRef
    let o := makeRepsDict refs r.2.2 repType ioRef rest
    (r.1 :: o.1, (name, r.2.1) :: o.2.1, o.2.2)

/-- The `Asset_Metadata` loop of `generic_asset_package` (lines 618-631):
unlike `complex_asset_package` it has no string fallback — a value that is
not an existing file is silently skipped. -/
def metadataStageGeneric (refs : Nat → String) (k : Nat) (ioRef : Option String)
    (xipSet : Bool) (fs : FS) :
    List (String × MetaSource) → Except PyErr (List XmlNode × Nat)
  | [] => .ok ([], k)
  | (ns, src) :: rest =>
    if pyBoolOfString ns ∧ src.truthy then
      match src with
      | .fsPath p =>
        if fsIsFile fs p then
          match fsLookupFile fs p with
          | some (.xmlDoc x) =>
            if ¬ xipSet then .error .attributeError
            else do
              let (l, k1) ← metadataStageGeneric refs (k + 1) ioRef xipSet fs rest
              return (metadataElem ns (refs k) ioRef x :: l, k1)
          | _ => .error .parseError
        else metadataStageGeneric refs k ioRef xipSet fs rest
      | .xmlString _ => metadataStageGeneric refs k ioRef xipSet fs rest
    else metadataStageGeneric refs k ioRef xipSet fs rest

/-- The asset-creation prologue of `generic_asset_package` (lines 489-505):
`default_asset_title` indexes the first key's file list (`IndexError` on an
empty first list) and the `InformationObject` is created at most once. -/
def genericCreateSt (refs : Nat → String) (parentFolder : Option ParentArg)
    (kw : PackageKwargs) (presDict accessDict : List (String × List FsPath)) :
    Except PyErr BuildSt :=
  let step1 : Except PyErr BuildSt :=
    if !presDict.isEmpty then
      match ((presDict.headD ("", [])).2).head? with
      | none => .error .indexError
      | some f0 =>
        let t := pySplitextRoot (fsBasename f0)
        let io := createIo refs 0 (some t) parentFolder kw
        .ok ⟨some [io.1], some io.2.1, io.2.2, some t⟩
    else .ok ⟨none, none, 0, none⟩
  match step1 with
  | .error e => .error e
  | .ok st1 =>
    if !accessDict.isEmpty then
      match st1.defaultTitle with
      | some _ => .ok st1
      | none =>
        match ((accessDict.headD ("", [])).2).head? with
        | none => .error .indexError
        | some f0 =>
          let t := pySplitextRoot (fsBasename f0)
          if st1.ioRef = none then
            let io := createIo refs st1.k (some t) parentFolder kw
            .ok ⟨some [io.1], some io.2.1, io.2.2, some t⟩
          else .ok { st1 with defaultTitle := some t }
    else .ok st1

/-- `generic_asset_package` (uploadAPI.py lines 462-661): like
`complex_asset_package` but with one representation per dictionary key. -/
def genericAssetPackage (refs : Nat → String) (now : String)
    (sha1Fixity : String → FsPath → FixityResult) (tempDir : FsPath)
    (preservationFilesDict accessFilesDict : Option (List (String × List FsPath)))
    (exportFolder : Option FsPath) (parentFolder : Option ParentArg)
    (compress : Bool) (kw : PackageKwargs) (fs : FS) :
    Except PyErr (Option FsPath × FS) :=
  let exportF := exportFolder.getD tempDir
  if ¬ fsIsDir fs exportF then
    .error (.runtimeError ["Export Folder Does Not Exist"])
  else if parentFolder = none then
    .error (.runtimeError ["You must specify a parent folder for the package asset"])
  else
    let presDict := preservationFilesDict.getD []
    let accessDict := accessFilesDict.getD []
    let securityTag := kw.securityTag.getD "open"
    let contentType := kw.customType.getD ""
    match genericCreateSt refs parentFolder kw presDict accessDict with
    | .error e => .error e
    | .ok st2 =>
      -- representations (lines 509-523)
      let presReps := makeRepsDict refs st2.k "Preservation" st2.ioRef presDict
      let accessReps := makeRepsDict refs presReps.2.2 "Access" st2.ioRef accessDict
      let presPairs := presReps.2.1.flatMap (fun e => e.2)
      let accessPairs := accessReps.2.1.flatMap (fun e => e.2)
      let kAfterReps := accessReps.2.2
      -- content objects (lines 525-562)
      let presCos := presPairs.map (fun pr =>
        let dt := pySplitextRoot (fsBasename pr.2)
        makeContentObjects (some (kw.presContentTitle.getD dt)) pr.1 st2.ioRef
          securityTag (some (kw.presContentDescription.getD dt)) contentType)
      let accessCos := accessPairs.map (fun pr =>
        let dt := pySplitextRoot (fsBasename pr.2)
        makeContentObjects (some (kw.accessContentTitle.getD dt)) pr.1 st2.ioRef
          securityTag (some (kw.accessContentDescription.getD dt)) contentType)
      -- generations (lines 564-578)
      let presGens := presPairs.map (fun pr =>
        makeGeneration now (fsBasename pr.2) pr.1 (kw.presGenerationLabel.getD ""))
      let accessGens := accessPairs.map (fun pr =>
        makeGeneration now (fsBasename pr.2) pr.1 (kw.accessGenerationLabel.getD ""))
      do
        -- bitstreams (lines 580-603)
        let presBits ← bitstreamStage fs (kw.presFixityCallback.getD sha1Fixity) presPairs
        let accessBits ← bitstreamStage fs (kw.accessFixityCallback.getD sha1Fixity) accessPairs
        -- identifiers and metadata (lines 605-631)
        let identElems ←
          match kw.identifiers with
          | none => pure []
          | some m => identifierStage st2.ioRef st2.xip.isSome m
        let metaOut ←
          match kw.assetMetadata with
          | none => pure (([] : List XmlNode), kAfterReps)
          | some m => metadataStageGeneric refs kAfterReps st2.ioRef st2.xip.isSome fs m
        let xipFinal := st2.xip.map (fun c =>
          c ++ presReps.1 ++ accessReps.1 ++ presCos ++ accessCos ++
          presGens ++ accessGens ++ presBits ++ accessBits ++ identElems ++ metaOut.1)
        -- staging, archiving, cleanup (lines 633-661)
        match xipFinal with
        | none => return (none, fs)
        | some children =>
          packageStaging exportF (st2.ioRef.getD "") children presPairs accessPairs fs

/-! ## Concrete fixtures used by witnesses and counterexamples -/

/-- A constructed v6.0 client. -/
def egClient : ClientState :=
  ⟨"srv", "user", "pw", some "ten", "tok0", false, 6, 0, 0,
   some "6.0.1", some nsXipV6, some nsEntityV6, none, none, none⟩

/-- The same client before any tenant is known. -/
def egClientNoTenant : ClientState := { egClient with tenant := none }

/-- A well-formed v6.0 entity response body. -/
def egAssetDoc : XmlNode :=
  .elem ⟨nsXipV6, "InformationObject"⟩ [] none [
    .elem ⟨nsXipV6, "Ref"⟩ [] (some "ref1") [],
    .elem ⟨nsXipV6, "Title"⟩ [] (some "T1") [],
    .elem ⟨nsXipV6, "Description"⟩ [] (some "D1") [],
    .elem ⟨nsXipV6, "SecurityTag"⟩ [] (some "open") [],
    .elem ⟨nsXipV6, "Parent"⟩ [] (some "par1") [],
    .elem ⟨nsEntityV6, "AdditionalInformation"⟩ [] none [
      .elem ⟨nsEntityV6, "Metadata"⟩ [] none [
        .elem ⟨nsEntityV6, "Fragment"⟩ [("schema", "http://x")]
          (some "http://url1") []]]]

/-- What `entity_from_string` extracts from `egAssetDoc`. -/
def egParsed : ParsedEntity :=
  ⟨some "ref1", some "T1", some "D1", some "open", some "par1",
   [(some "http://url1", "http://x")]⟩

/-- A uuid supply for package-builder examples. -/
def egRefs : Nat → String := fun i => "u" ++ toString i

/-- A fixity callback for package-builder examples. -/
def egFixity : String → FsPath → FixityResult := fun _ _ => .tup "SHA1" "h"

/-- A filesystem with an export directory and one input file. -/
def egFS : FS := ⟨[["exp"]], [(["data", "f1.txt"], .bytes "hello")]⟩

/-! ## Shared lemmas about the retry skeleton -/

@[simp]
theorem runOp_nil {α : Type} (handle : ClientState → Reply → List Reply → OpOut α)
    (s : ClientState) :
    runOp handle s [] = ⟨.error .noReply, s, [], 0, 0⟩ := by
  rw [runOp.eq_def]

theorem runOp_cons_ne401 {α : Type}
    (handle : ClientState → Reply → List Reply → OpOut α)
    (s : ClientState) (r : Reply) (rest : List Reply) (h : ¬ r.status = 401) :
    runOp handle s (r :: rest) =
      ⟨(handle s r rest).result, (handle s r rest).state, (handle s r rest).rest,
        (handle s r rest).gets + 1, (handle s r rest).refreshes⟩ := by
  rw [runOp.eq_def]
  simp [h]

theorem runOp_cons_401_nil {α : Type}
    (handle : ClientState → Reply → List Reply → OpOut α)
    (s : ClientState) (r : Reply) (h : r.status = 401) :
    runOp handle s [r] = ⟨.error .noReply, s, [], 1, 0⟩ := by
  rw [runOp.eq_def]
  simp [h]

theorem runOp_cons_401_step {α : Type}
    (handle : ClientState → Reply → List Reply → OpOut α)
    (s s1 : ClientState) (r tr : Reply) (rest2 : List Reply) (tok : String)
    (h : r.status = 401) (ht : tokenStep s tr = .ok (tok, s1)) :
    runOp handle s (r :: tr :: rest2) =
      ⟨(runOp handle { s1 with token := tok } rest2).result,
        (runOp handle { s1 with token := tok } rest2).state,
        (runOp handle { s1 with token := tok } rest2).rest,
        (runOp handle { s1 with token := tok } rest2).gets + 1,
        (runOp handle { s1 with token := tok } rest2).refreshes + 1⟩ := by
  rw [runOp.eq_def]
  simp [h, ht]

theorem runOp_cons_401_tokenfail {α : Type}
    (handle : ClientState → Reply → List Reply → OpOut α)
    (s : ClientState) (r tr : Reply) (rest2 : List Reply) (e : PyErr)
    (h : r.status = 401) (ht : tokenStep s tr = .error e) :
    runOp handle s (r :: tr :: rest2) = ⟨.error e, s, rest2, 1, 1⟩ := by
  rw [runOp.eq_def]
  simp [h, ht]

/-- Equality of every persistent client attribute except `token` and
`tenant`: the frame left untouched by the modelled read operations. -/
def frameEq (s s' : ClientState) : Prop :=
  s'.server = s.server ∧ s'.username = s.username ∧ s'.password = s.password ∧
  s'.sharedSecret = s.sharedSecret ∧ s'.majorVersion = s.majorVersion ∧
  s'.minorVersion = s.minorVersion ∧ s'.patchVersion = s.patchVersion ∧
  s'.version = s.version ∧ s'.xipNs = s.xipNs ∧ s'.entityNs = s.entityNs ∧
  s'.rmNs = s.rmNs ∧ s'.secNs = s.secNs ∧ s'.adminNs = s.adminNs

theorem frameEq_refl (s : ClientState) : frameEq s s := by
  simp [frameEq]

theorem frameEq_trans {s1 s2 s3 : ClientState} (h1 : frameEq s1 s2)
    (h2 : frameEq s2 s3) : frameEq s1 s3 := by
  obtain ⟨a1, a2, a3, a4, a5, a6, a7, a8, a9, a10, a11, a12, a13⟩ := h1
  obtain ⟨b1, b2, b3, b4, b5, b6, b7, b8, b9, b10, b11, b12, b13⟩ := h2
  exact ⟨b1.trans a1, b2.trans a2, b3.trans a3, b4.trans a4, b5.trans a5,
    b6.trans a6, b7.trans a7, b8.trans a8, b9.trans a9, b10.trans a10,
    b11.trans a11, b12.trans a12, b13.trans a13⟩

theorem frameEq_token (s : ClientState) (tok : String) :
    frameEq s { s with token := tok } := by
  simp [frameEq]

/-- A token refresh changes at most `token` (returned) and `tenant`. -/
theorem tokenStep_frame (s s1 : ClientState) (r : Reply) (tok : String)
    (h : tokenStep s r = .ok (tok, s1)) : frameEq s s1 := by
  unfold tokenStep at h
  cases hs : s.sharedSecret <;> simp [hs] at h <;> cases r <;> simp at h
  case false.jsonReply status fields =>
    by_cases h200 : status = 200
    · simp [h200] at h
      cases ht : s.tenant with
      | none =>
        simp [ht] at h
        cases hl : fields.lookup "tenant" <;> simp [hl] at h
        cases hl2 : fields.lookup "token" <;> simp [hl2] at h
        cases h with
        | intro h1 h2 => rw [← h2]; simp [frameEq, hs]
      | some t =>
        simp [ht] at h
        cases hl2 : fields.lookup "token" <;> simp [hl2] at h
        cases h with
        | intro h1 h2 => rw [← h2]; exact frameEq_refl s
    · simp [h200] at h
  case true.jsonReply status fields =>
    by_cases h200 : status = 200
    · simp [h200] at h
      cases hl2 : fields.lookup "token" <;> simp [hl2] at h
      cases h with
      | intro h1 h2 => rw [← h2]; exact frameEq_refl s
    · simp [h200] at h

/-- The retry skeleton preserves the frame whenever every handler does. -/
theorem runOp_frame {α : Type}
    (handle : ClientState → Reply → List Reply → OpOut α)
    (hh : ∀ s r rest, frameEq s (handle s r rest).state) :
    ∀ (trace : List Reply) (s : ClientState),
      frameEq s (runOp handle s trace).state := by
  have main : ∀ (k : Nat) (trace : List Reply) (s : ClientState),
      trace.length ≤ k → frameEq s (runOp handle s trace).state := by
    intro k
    induction k with
    | zero =>
      intro trace s hlen
      cases trace with
      | nil => simp [frameEq_refl]
      | cons r rest => simp at hlen
    | succ k ih =>
      intro trace s hlen
      cases trace with
      | nil => simp [frameEq_refl]
      | cons r rest =>
        by_cases h4 : r.status = 401
        · cases rest with
          | nil => rw [runOp_cons_401_nil handle s r h4]; exact frameEq_refl s
          | cons tr rest2 =>
            cases ht : tokenStep s tr with
            | error e =>
              rw [runOp_cons_401_tokenfail handle s r tr rest2 e h4 ht]
              exact frameEq_refl s
            | ok p =>
              rw [runOp_cons_401_step handle s p.2 r tr rest2 p.1 h4 (by rw [ht])]
              have hf1 : frameEq s p.2 := tokenStep_frame s p.2 tr p.1 (by rw [ht])
              have hf2 : frameEq p.2 { p.2 with token := p.1 } := frameEq_token p.2 p.1
              have hf3 := ih rest2 { p.2 with token := p.1 }
                (by simp at hlen; omega)
              exact frameEq_trans (frameEq_trans hf1 hf2) hf3
        · rw [runOp_cons_ne401 handle s r rest h4]
          exact hh s r rest
  intro trace s
  exact main trace.length trace s le_rfl

/-- The 401-retry reply prefix: `n` rounds of a 401 entity reply followed
by a successful password token reply. -/
def retryPrefix (n : Nat) (errBody : XmlNode) (tok : String) : List Reply :=
  (List.replicate n
    [Reply.xmlReply 401 errBody, Reply.jsonReply 200 [("token", tok)]]).flatten

/-- Running any operation against `n` retry rounds followed by a tail:
the operation issues `n` extra requests and `n` token refreshes and then
behaves like the operation run on the tail with a refreshed token. -/
theorem runOp_retryPrefix {α : Type}
    (handle : ClientState → Reply → List Reply → OpOut α)
    (n : Nat) (errBody : XmlNode) (tok : String) (tail : List Reply) :
    ∀ s : ClientState, s.sharedSecret = false → s.tenant ≠ none →
    ∃ t0 : String,
      runOp handle s (retryPrefix n errBody tok ++ tail) =
        ⟨(runOp handle { s with token := t0 } tail).result,
          (runOp handle { s with token := t0 } tail).state,
          (runOp handle { s with token := t0 } tail).rest,
          (runOp handle { s with token := t0 } tail).gets + n,
          (runOp handle { s with token := t0 } tail).refreshes + n⟩ := by
  induction n with
  | zero =>
    intro s hsh ht
    refine ⟨s.token, ?_⟩
    simp [retryPrefix]
  | succ n ih =>
    intro s hsh ht
    have hstep : tokenStep s (.jsonReply 200 [("token", tok)]) = .ok (tok, s) := by
      unfold tokenStep
      cases htn : s.tenant with
      | none => exact absurd htn ht
      | some t => simp [hsh, htn]
    have hpre : retryPrefix (n + 1) errBody tok ++ tail =
        Reply.xmlReply 401 errBody :: Reply.jsonReply 200 [("token", tok)] ::
          (retryPrefix n errBody tok ++ tail) := by
      simp [retryPrefix, List.replicate_succ]
    rw [hpre, runOp_cons_401_step handle s s _ _ _ tok (by rfl) hstep]
    obtain ⟨t0, hrec⟩ := ih { s with token := tok } (by simpa) (by simpa)
    refine ⟨t0, ?_⟩
    rw [hrec]
    simp
    omega

/-! ## Claim C8 -/

/-- C8 (code bug): `sanitize` promises (docstring: "make sure we do not
exceed Windows filename length limits", and the reserved-names comment) a
non-empty result of length at most 255 that is not a reserved device name —
but `ext = ext[254:]` keeps the *tail* of an over-long extension (instead
of truncating it), making `maxl` negative, so
`sanitize ("a." ++ 509 × 'b')` has 256 characters; and the reserved-name
check runs before length truncation, so
`sanitize ("CON" ++ 260 × ' ' ++ "x")` returns the reserved name `CON`.
Both inputs are ASCII, where NFKD normalisation is the identity. -/
theorem sanitize_violates_length_and_reserved :
    (sanitize id ('a' :: '.' :: List.replicate 509 'b')).length = 256 ∧
    sanitize id ("CON".data ++ List.replicate 260 ' ' ++ ['x']) = "CON".data ∧
    "CON".data ∈ reservedNames := by
  refine ⟨by decide, by decide, by decide⟩

/-! ## Claim C2 -/

/-- C2: on a 200 reply, `asset`, `folder` and `content_object` return an
`Asset` / `Folder` / `ContentObject` whose reference, title, description,
security tag, parent and metadata are the fields `entity_from_string`
parses out of the XML body; on a 404 reply each raises an error whose
message says the requested reference is not found in the repository. -/
theorem entity_reads_parse_200_and_raise_on_404
    (s : ClientState) (xn en reference : String) (body : XmlNode)
    (e : ParsedEntity) (rest : List Reply)
    (hx : s.xipNs = some xn) (he : s.entityNs = some en)
    (hp : entityFromString xn en body = .ok e) :
    assetOp s reference (.xmlReply 200 body :: rest) =
      ⟨.ok (mkAsset e), s, rest, 1, 0⟩ ∧
    folderOp s reference (.xmlReply 200 body :: rest) =
      ⟨.ok (mkFolder e), s, rest, 1, 0⟩ ∧
    contentObjectOp s reference (.xmlReply 200 body :: rest) =
      ⟨.ok (mkContentObject e), s, rest, 1, 0⟩ ∧
    assetOp s reference (.xmlReply 404 body :: rest) =
      ⟨.error (.runtimeError [reference,
        "The requested reference is not found in the repository"]), s, rest, 1, 0⟩ ∧
    folderOp s reference (.xmlReply 404 body :: rest) =
      ⟨.error (.runtimeError [reference,
        "The requested reference is not found in the repository"]), s, rest, 1, 0⟩ ∧
    contentObjectOp s reference (.xmlReply 404 body :: rest) =
      ⟨.error (.runtimeError [reference,
        "The requested reference is not found in the repository"]), s, rest, 1, 0⟩ := by
  have h200 : ¬ (Reply.xmlReply 200 body).status = 401 := by simp [Reply.status]
  have h404 : ¬ (Reply.xmlReply 404 body).status = 401 := by simp [Reply.status]
  refine ⟨?_, ?_, ?_, ?_, ?_, ?_⟩
  · rw [assetOp, runOp_cons_ne401 _ _ _ _ h200]
    simp [assetHandle, hx, he, hp]
  · rw [folderOp, runOp_cons_ne401 _ _ _ _ h200]
    simp [folderHandle, hx, he, hp]
  · rw [contentObjectOp, runOp_cons_ne401 _ _ _ _ h200]
    simp [contentObjectHandle, hx, he, hp]
  · rw [assetOp, runOp_cons_ne401 _ _ _ _ h404]
    simp [assetHandle]
  · rw [folderOp, runOp_cons_ne401 _ _ _ _ h404]
    simp [folderHandle]
  · rw [contentObjectOp, runOp_cons_ne401 _ _ _ _ h404]
    simp [contentObjectHandle]

/-- Witness for C2 at a concrete client, body and reference. -/
theorem entity_reads_parse_200_and_raise_on_404_witness :
    assetOp egClient "ref1" [.xmlReply 200 egAssetDoc] =
      ⟨.ok (mkAsset egParsed), egClient, [], 1, 0⟩ ∧
    contentObjectOp egClient "ref1" [.xmlReply 404 egAssetDoc] =
      ⟨.error (.runtimeError ["ref1",
        "The requested reference is not found in the repository"]),
        egClient, [], 1, 0⟩ := by
  have h := entity_reads_parse_200_and_raise_on_404 egClient nsXipV6 nsEntityV6
    "ref1" egAssetDoc egParsed [] rfl rfl (by rfl)
  exact ⟨h.1, h.2.2.2.2.2⟩

/-! ## Claim C3 -/

/-- C3: with `use_shared_secret` false, `__token__` POSTs username and
password (plus the tenant when known, `includeUserDetails` otherwise) to
`/api/accesstoken/login`, returns the `token` JSON field on 200 and raises
`RuntimeError` on any other status; with `use_shared_secret` true it POSTs
to `/api/accesstoken/acquire-external` with `hash` equal to the SHA-1 hex
digest of `"preservica-external-auth" + timestamp + username + password`,
returns the `token` field on 200 and raises `RuntimeError` otherwise. -/
theorem token_password_and_shared_secret
    (sha1Hex : String → String) (s : ClientState) (timestamp : Int)
    (fields : List (String × String)) (tok t : String) (status : Nat) :
    (s.sharedSecret = false → s.tenant = none →
      tokenRequest sha1Hex s timestamp =
        { url := "https://" ++ s.server ++ "/api/accesstoken/login",
          data := [("username", some s.username), ("password", some s.password),
                   ("includeUserDetails", some "true")] }) ∧
    (s.sharedSecret = false → s.tenant = some t →
      tokenRequest sha1Hex s timestamp =
        { url := "https://" ++ s.server ++ "/api/accesstoken/login",
          data := [("username", some s.username), ("password", some s.password),
                   ("tenant", some t)] }) ∧
    (s.sharedSecret = false → s.tenant = some t →
      fields.lookup "token" = some tok →
      tokenStep s (.jsonReply 200 fields) = .ok (tok, s)) ∧
    (s.sharedSecret = false → ¬ status = 200 →
      tokenStep s (.jsonReply status fields) = .error (.runtimeError
        [toString status,
         "Failed to create a password based authentication token. Check your credentials are correct"])) ∧
    (s.sharedSecret = true →
      tokenRequest sha1Hex s timestamp =
        { url := "https://" ++ s.server ++ "/" ++ "api/accesstoken/acquire-external",
          data := [("username", some s.username), ("tenant", s.tenant),
                   ("timestamp", some (toString timestamp)),
                   ("hash", some (sha1Hex ("preservica-external-auth" ++
                      toString timestamp ++ s.username ++ s.password)))] }) ∧
    (s.sharedSecret = true → fields.lookup "token" = some tok →
      tokenStep s (.jsonReply 200 fields) = .ok (tok, s)) ∧
    (s.sharedSecret = true → ¬ status = 200 →
      tokenStep s (.jsonReply status fields) = .error (.runtimeError
        [toString status,
         "Failed to create a shared secret authentication token. Check your credentials are correct"])) := by
  refine ⟨?_, ?_, ?_, ?_, ?_, ?_, ?_⟩
  · intro hs ht
    simp [tokenRequest, hs, ht]
  · intro hs ht
    simp [tokenRequest, hs, ht]
  · intro hs ht hl
    simp [tokenStep, hs, ht, hl]
  · intro hs hst
    simp [tokenStep, hs, hst]
  · intro hs
    simp [tokenRequest, hs]
  · intro hs hl
    simp [tokenStep, hs, hl]
  · intro hs hst
    simp [tokenStep, hs, hst]

/-- Witness for C3 at concrete credentials, timestamp and replies. -/
theorem token_password_and_shared_secret_witness :
    tokenRequest (fun h => "sha:" ++ h) egClient 7 =
      { url := "https://srv/api/accesstoken/login",
        data := [("username", some "user"), ("password", some "pw"),
                 ("tenant", some "ten")] } ∧
    tokenStep egClient (.jsonReply 200 [("token", "tk")]) = .ok ("tk", egClient) ∧
    tokenRequest (fun h => "sha:" ++ h) { egClient with sharedSecret := true } 7 =
      { url := "https://srv/" ++ "api/accesstoken/acquire-external",
        data := [("username", some "user"), ("tenant", some "ten"),
                 ("timestamp", some "7"),
                 ("hash", some ("sha:" ++ "preservica-external-auth7userpw"))] } ∧
    tokenStep egClient (.jsonReply 500 []) = .error (.runtimeError
      ["500",
       "Failed to create a password based authentication token. Check your credentials are correct"]) := by
  have h1 := token_password_and_shared_secret (fun h => "sha:" ++ h) egClient 7
    [("token", "tk")] "tk" "ten" 500
  have h2 := token_password_and_shared_secret (fun h => "sha:" ++ h)
    { egClient with sharedSecret := true } 7 [] "tk" "ten" 500
  refine ⟨?_, ?_, ?_, ?_⟩
  · exact (h1.2.1 rfl rfl).trans (by rfl)
  · exact h1.2.2.1 rfl rfl rfl
  · exact (h2.2.2.2.2.1 rfl).trans (by rfl)
  · exact h1.2.2.2.1 rfl (by decide)

/-! ## Claim C9 -/

/-- C9: each of username, password, tenant and server is resolved to the
first value found among the explicit argument (found = truthy), the
`PRESERVICA_*` environment variable (found = set, even when empty, which
blocks the config file) and the `credentials.properties` entry, in that
order (`pyResolve`, the code, coincides with `specFirstFound`, the
specification's wording); the constructor raises `RuntimeError` exactly
when username, password or server resolve to no (truthy) value, while an
unresolved tenant is accepted and stored as `None`. -/
theorem init_resolves_credentials_in_order
    (ua pa ta sa : Option String) (env cfg : String → Option String) :
    (∀ arg e c : Option String, pyResolve arg e c = specFirstFound arg e c) ∧
    (¬ pyTruthyS (pyResolve ua (env "PRESERVICA_USERNAME") (cfg "username")) →
      initResolveCredentials ua pa ta sa env cfg = .error (.runtimeError
        ["No valid username found in method arguments, environment variables or credentials.properties file"])) ∧
    (pyTruthyS (pyResolve ua (env "PRESERVICA_USERNAME") (cfg "username")) →
     ¬ pyTruthyS (pyResolve pa (env "PRESERVICA_PASSWORD") (cfg "password")) →
      initResolveCredentials ua pa ta sa env cfg = .error (.runtimeError
        ["No valid password found in method arguments, environment variables or credentials.properties file"])) ∧
    (pyTruthyS (pyResolve ua (env "PRESERVICA_USERNAME") (cfg "username")) →
     pyTruthyS (pyResolve pa (env "PRESERVICA_PASSWORD") (cfg "password")) →
     ¬ pyTruthyS (pyResolve sa (env "PRESERVICA_SERVER") (cfg "server")) →
      initResolveCredentials ua pa ta sa env cfg = .error (.runtimeError
        ["No valid server found in method arguments, environment variables or credentials.properties file"])) ∧
    (pyTruthyS (pyResolve ua (env "PRESERVICA_USERNAME") (cfg "username")) →
     pyTruthyS (pyResolve pa (env "PRESERVICA_PASSWORD") (cfg "password")) →
     pyTruthyS (pyResolve sa (env "PRESERVICA_SERVER") (cfg "server")) →
      ∃ r : ResolvedCredentials,
        initResolveCredentials ua pa ta sa env cfg = .ok r ∧
        some r.username = pyResolve ua (env "PRESERVICA_USERNAME") (cfg "username") ∧
        some r.password = pyResolve pa (env "PRESERVICA_PASSWORD") (cfg "password") ∧
        r.tenant = pyResolve ta (env "PRESERVICA_TENANT") (cfg "tenant") ∧
        some r.server = pyResolve sa (env "PRESERVICA_SERVER") (cfg "server")) := by
  refine ⟨?_, ?_, ?_, ?_, ?_⟩
  · intro arg e c
    cases arg with
    | none => cases e <;> simp [pyResolve, specFirstFound, pyTruthyS]
    | some v =>
      by_cases hv : v.isEmpty
      · cases e <;> simp [pyResolve, specFirstFound, pyTruthyS, hv]
      · simp [pyResolve, specFirstFound, pyTruthyS, hv]
  · intro h
    simp [initResolveCredentials, h]
  · intro h1 h2
    simp [initResolveCredentials, h1, h2]
  · intro h1 h2 h3
    simp [initResolveCredentials, h1, h2, h3]
  · intro h1 h2 h3
    refine ⟨⟨(pyResolve ua (env "PRESERVICA_USERNAME") (cfg "username")).getD "",
      (pyResolve pa (env "PRESERVICA_PASSWORD") (cfg "password")).getD "",
      pyResolve ta (env "PRESERVICA_TENANT") (cfg "tenant"),
      (pyResolve sa (env "PRESERVICA_SERVER") (cfg "server")).getD ""⟩,
      by simp [initResolveCredentials, h1, h2, h3], ?_, ?_, rfl, ?_⟩
    · cases hu : pyResolve ua (env "PRESERVICA_USERNAME") (cfg "username") with
      | none => rw [hu] at h1; simp [pyTruthyS] at h1
      | some v => simp [hu]
    · cases hp : pyResolve pa (env "PRESERVICA_PASSWORD") (cfg "password") with
      | none => rw [hp] at h2; simp [pyTruthyS] at h2
      | some v => simp [hp]
    · cases hs : pyResolve sa (env "PRESERVICA_SERVER") (cfg "server") with
      | none => rw [hs] at h3; simp [pyTruthyS] at h3
      | some v => simp [hs]

/-- Witness for C9: argument beats environment, environment beats config,
a missing tenant stays `None`, and a missing password raises. -/
theorem init_resolves_credentials_in_order_witness :
    initResolveCredentials (some "argU") none none (some "argS")
      (fun k => if k = "PRESERVICA_USERNAME" then some "envU"
        else if k = "PRESERVICA_PASSWORD" then some "envP" else none)
      (fun k => if k = "password" then some "cfgP" else none) =
      .ok ⟨"argU", "envP", none, "argS"⟩ ∧
    initResolveCredentials none none none none (fun _ => none) (fun _ => none) =
      .error (.runtimeError
        ["No valid username found in method arguments, environment variables or credentials.properties file"]) := by
  have h2 := init_resolves_credentials_in_order none none none none
    (fun _ => none) (fun _ => none)
  exact ⟨rfl, h2.2.1 (by decide)⟩

/-! ## Claim C4 -/

/-- A client as it is mid-construction: version numbers and namespace
attributes not yet assigned (`none` models the absent attribute). -/
def egFreshClient : ClientState :=
  ⟨"srv", "user", "pw", some "ten", "tok0", false, 0, 0, 0,
   none, none, none, none, none, none⟩

/-- A version endpoint body for a v7 server. -/
def egVersion7Body : String :=
  "<VersionResponse><CurrentVersion>7.0.1</CurrentVersion></VersionResponse>"

/-- C4 counterexample: against a server that answers the version endpoint
with 7.0.1, `__version_number__` parses major version 7, but
`__version_namespace__` (which only handles `major_version == 6`) assigns
no namespace attribute, so `xip_ns` and `entity_ns` are *not* set after
construction — the claim says they always are. -/
theorem version_namespace_unset_for_major7 :
    (versionNumberOp egFreshClient [.rawReply 200 egVersion7Body]).state.majorVersion = 7 ∧
    (versionNamespace
      (versionNumberOp egFreshClient [.rawReply 200 egVersion7Body]).state).xipNs = none ∧
    (versionNamespace
      (versionNumberOp egFreshClient [.rawReply 200 egVersion7Body]).state).entityNs = none := by
  refine ⟨by decide, by decide, by decide⟩

/-- C4 amended: on a 200 reply whose `<CurrentVersion>` slice splits into
three integer components, `__version_number__` stores them as major, minor
and patch; `__version_namespace__` derives the namespaces *only when the
major version is 6* — the fixed v6.0 strings when minor < 2, strings
containing the detected major.minor otherwise — and leaves the client
unchanged (namespace attributes unset) for any other major version. -/
theorem version_number_and_namespace (s : ClientState) (body : String)
    (l1 l2 l3 : List Char) (a b c : Int) :
    ((currentVersionOf body).splitOnP (fun ch => ch == '.') = [l1, l2, l3] →
     pyIntOfString (String.mk l1) = some a →
     pyIntOfString (String.mk l2) = some b →
     pyIntOfString (String.mk l3) = some c →
      versionNumberOp s [.rawReply 200 body] =
        ⟨.ok (some (String.mk (currentVersionOf body))),
          { s with majorVersion := a, minorVersion := b, patchVersion := c },
          [], 1, 0⟩) ∧
    (s.majorVersion = 6 → s.minorVersion < 2 →
      versionNamespace s =
        { s with xipNs := some nsXipV6, entityNs := some nsEntityV6 }) ∧
    (s.majorVersion = 6 → ¬ s.minorVersion < 2 →
      versionNamespace s =
        { s with
          xipNs := some (nsXipRoot ++ "v" ++ toString s.majorVersion ++ "." ++
            toString s.minorVersion),
          entityNs := some (nsEntityRoot ++ "v" ++ toString s.majorVersion ++ "." ++
            toString s.minorVersion),
          rmNs := some (nsRmRoot ++ "v" ++ toString s.majorVersion ++ "." ++ "2"),
          secNs := some (nsSecRoot ++ "/v" ++ toString s.majorVersion ++ "." ++
            toString s.minorVersion),
          adminNs := some (nsAdmin ++ "/v" ++ toString s.majorVersion ++ "." ++
            toString s.minorVersion) }) ∧
    (¬ s.majorVersion = 6 → versionNamespace s = s) := by
  refine ⟨?_, ?_, ?_, ?_⟩
  · intro hsplit h1 h2 h3
    rw [versionNumberOp, runOp_cons_ne401 _ _ _ _ (by simp [Reply.status])]
    simp [versionNumberHandle, hsplit, h1, h2, h3]
  · intro hm hn
    simp [versionNamespace, hm, hn]
  · intro hm hn
    simp [versionNamespace, hm, hn]
  · intro hm
    simp [versionNamespace, hm]

/-- Witness for C4 (amended) on a 6.3.1 server reply. -/
theorem version_number_and_namespace_witness :
    versionNumberOp egFreshClient
        [.rawReply 200 "<a><CurrentVersion>6.3.1</CurrentVersion></a>"] =
      ⟨.ok (some "6.3.1"),
        { egFreshClient with majorVersion := 6, minorVersion := 3, patchVersion := 1 },
        [], 1, 0⟩ ∧
    versionNamespace
        { egFreshClient with majorVersion := 6, minorVersion := 3, patchVersion := 1 } =
      { egFreshClient with
        majorVersion := 6, minorVersion := 3, patchVersion := 1,
        xipNs := some "http://preservica.com/XIP/v6.3",
        entityNs := some "http://preservica.com/EntityAPI/v6.3",
        rmNs := some "http://preservica.com/RetentionManagement/v6.2",
        secNs := some "http://preservica.com/SecurityAPI/v6.3",
        adminNs := some "http://preservica.com/AdminAPI/v6.3" } := by
  have h := version_number_and_namespace egFreshClient
    "<a><CurrentVersion>6.3.1</CurrentVersion></a>"
    "6".data "3".data "1".data 6 3 1
  have h2 := version_number_and_namespace
    { egFreshClient with majorVersion := 6, minorVersion := 3, patchVersion := 1 }
    "" "6".data "3".data "1".data 6 3 1
  constructor
  · exact (h.1 (by decide) (by decide) (by decide) (by decide)).trans (by rfl)
  · exact (h2.2.2.1 (by decide) (by decide)).trans (by decide)

/-! ## Claim C10 -/

theorem identifierStage_all_falsy (ioRef : Option String) (xipSet : Bool)
    (m : List (String × String))
    (h : ∀ pr ∈ m, ¬ (pyBoolOfString pr.1 ∧ pyBoolOfString pr.2)) :
    identifierStage ioRef xipSet m = .ok [] := by
  induction m with
  | nil => rfl
  | cons pr rest ih =>
    have hpr := h pr (by simp)
    simp only [identifierStage, hpr, if_false]
    exact ih (fun q hq => h q (by simp [hq]))

theorem metadataStage_all_falsy (refs : Nat → String) (k : Nat)
    (ioRef : Option String) (xipSet : Bool) (fs : FS)
    (m : List (String × MetaSource))
    (h : ∀ pr ∈ m, ¬ (pyBoolOfString pr.1 ∧ pr.2.truthy = true)) :
    metadataStage refs k ioRef xipSet fs m = .ok ([], k) := by
  induction m with
  | nil => rfl
  | cons pr rest ih =>
    have hpr := h pr (by simp)
    have hpr2 : ¬ (pyBoolOfString pr.1 ∧ pr.2.truthy) := by
      intro hx
      exact hpr ⟨hx.1, hx.2⟩
    simp only [metadataStage, hpr2, if_false]
    exact ih (fun q hq => h q (by simp [hq]))

theorem metadataStageGeneric_all_falsy (refs : Nat → String) (k : Nat)
    (ioRef : Option String) (xipSet : Bool) (fs : FS)
    (m : List (String × MetaSource))
    (h : ∀ pr ∈ m, ¬ (pyBoolOfString pr.1 ∧ pr.2.truthy = true)) :
    metadataStageGeneric refs k ioRef xipSet fs m = .ok ([], k) := by
  induction m with
  | nil => rfl
  | cons pr rest ih =>
    have hpr := h pr (by simp)
    have hpr2 : ¬ (pyBoolOfString pr.1 ∧ pr.2.truthy) := by
      intro hx
      exact hpr ⟨hx.1, hx.2⟩
    simp only [metadataStageGeneric, hpr2, if_false]
    exact ih (fun q hq => h q (by simp [hq]))

/-- C10 counterexample: with no preservation or access files but a truthy
`Identifiers` keyword pair, `complex_asset_package` does *not* return
`None`: the XIP tree was never created, so appending the `Identifier`
element raises `AttributeError` (`SubElement(None, ...)`). -/
theorem empty_package_with_identifiers_raises :
    complexAssetPackage egRefs "NOW" egFixity ["tmp"] none none (some ["exp"])
      (some (.strRef "P")) true { identifiers := some [("a", "b")] } egFS =
      .error .attributeError := by
  rfl

/-- C10 amended: with empty (or `None`) file collections, an existing
export folder and a non-`None` parent folder, `complex_asset_package` and
`generic_asset_package` return `None` and leave the filesystem untouched —
*provided* every `Identifiers` pair and every `Asset_Metadata` entry is
falsy (in particular when those kwargs are absent); a truthy entry instead
raises on the absent XIP tree. -/
theorem empty_package_returns_none (refs : Nat → String) (now : String)
    (sha1F : String → FsPath → FixityResult) (tempDir : FsPath)
    (pres access : Option (List FsPath))
    (presD accessD : Option (List (String × List FsPath)))
    (exportDir : FsPath) (pa : ParentArg) (compress : Bool) (kw : PackageKwargs)
    (fs : FS)
    (hpres : pres.getD [] = []) (haccess : access.getD [] = [])
    (hpresD : presD.getD [] = []) (haccessD : accessD.getD [] = [])
    (hdir : fsIsDir fs exportDir = true)
    (hid : ∀ pr ∈ kw.identifiers.getD [], ¬ (pyBoolOfString pr.1 ∧ pyBoolOfString pr.2))
    (hmeta : ∀ pr ∈ kw.assetMetadata.getD [], ¬ (pyBoolOfString pr.1 ∧ pr.2.truthy = true)) :
    complexAssetPackage refs now sha1F tempDir pres access (some exportDir)
      (some pa) compress kw fs = .ok (none, fs) ∧
    genericAssetPackage refs now sha1F tempDir presD accessD (some exportDir)
      (some pa) compress kw fs = .ok (none, fs) := by
  constructor
  · rw [complexAssetPackage]
    simp only [Option.getD_some, hdir, hpres, haccess]
    simp only [List.isEmpty_nil, Bool.not_true, Bool.false_eq_true, if_false,
      reduceCtorEq, ite_false]
    cases hki : kw.identifiers with
    | none =>
      cases hkm : kw.assetMetadata with
      | some m =>
        have hm := metadataStage_all_falsy refs 0 none false fs m
          (by rw [hkm] at hmeta; simpa using hmeta)
        simp [hki, hkm, hm, bitstreamStage, bind, Except.bind, pure, Except.pure]
      | none => simp [hki, hkm, bitstreamStage, bind, Except.bind, pure, Except.pure]
    | some mi =>
      have hi := identifierStage_all_falsy none false mi
        (by rw [hki] at hid; simpa using hid)
      cases hkm : kw.assetMetadata with
      | some m =>
        have hm := metadataStage_all_falsy refs 0 none false fs m
          (by rw [hkm] at hmeta; simpa using hmeta)
        simp [hki, hkm, hi, hm, bitstreamStage, bind, Except.bind, pure, Except.pure]
      | none => simp [hki, hkm, hi, bitstreamStage, bind, Except.bind, pure, Except.pure]
  · rw [genericAssetPackage]
    simp only [Option.getD_some, hdir, hpresD, haccessD]
    simp only [reduceCtorEq, ite_false]
    have hst : genericCreateSt refs (some pa) kw [] [] = .ok ⟨none, none, 0, none⟩ := rfl
    rw [hst]
    simp only [makeRepsDict, List.flatMap_nil, List.map_nil]
    cases hki : kw.identifiers with
    | none =>
      cases hkm : kw.assetMetadata with
      | some m =>
        have hm := metadataStageGeneric_all_falsy refs 0 none false fs m
          (by rw [hkm] at hmeta; simpa using hmeta)
        simp [hki, hkm, hm, bitstreamStage, bind, Except.bind, pure, Except.pure]
      | none => simp [hki, hkm, bitstreamStage, bind, Except.bind, pure, Except.pure]
    | some mi =>
      have hi := identifierStage_all_falsy none false mi
        (by rw [hki] at hid; simpa using hid)
      cases hkm : kw.assetMetadata with
      | some m =>
        have hm := metadataStageGeneric_all_falsy refs 0 none false fs m
          (by rw [hkm] at hmeta; simpa using hmeta)
        simp [hki, hkm, hi, hm, bitstreamStage, bind, Except.bind, pure, Except.pure]
      | none => simp [hki, hkm, hi, bitstreamStage, bind, Except.bind, pure, Except.pure]

/-- Witness for C10 (amended) on a concrete filesystem with no kwargs. -/
theorem empty_package_returns_none_witness :
    complexAssetPackage egRefs "NOW" egFixity ["tmp"] none (some [])
      (some ["exp"]) (some (.strRef "P")) true {} egFS = .ok (none, egFS) ∧
    genericAssetPackage egRefs "NOW" egFixity ["tmp"] (some []) none
      (some ["exp"]) (some (.strRef "P")) true {} egFS = .ok (none, egFS) := by
  exact empty_package_returns_none egRefs "NOW" egFixity ["tmp"] none (some [])
    (some []) none ["exp"] (.strRef "P") true {} egFS rfl rfl rfl rfl (by decide)
    (by simp) (by simp)

/-! ## Claim C1 -/

/-- Two consecutive 401 replies, each followed by a successful token
reply, and then a 200. -/
def egRetryTrace : List Reply :=
  [.xmlReply 401 egAssetDoc, .jsonReply 200 [("token", "t1")],
   .xmlReply 401 egAssetDoc, .jsonReply 200 [("token", "t2")],
   .xmlReply 200 egAssetDoc]

/-- C1 counterexample: two consecutive 401 replies trigger *two* token
refreshes and a third request — the operation still succeeds — so a second
consecutive 401 does trigger a further retry, and the request is not
retried "exactly once". -/
theorem asset_retries_after_second_401 :
    (assetOp egClient "ref1" egRetryTrace).result = .ok (mkAsset egParsed) ∧
    (assetOp egClient "ref1" egRetryTrace).gets = 3 ∧
    (assetOp egClient "ref1" egRetryTrace).refreshes = 2 ∧
    ¬ (assetOp egClient "ref1" egRetryTrace).gets ≤ 2 := by
  refine ⟨rfl, rfl, rfl, by decide⟩

/-- C1 amended: a 401 reply makes the operation refresh the token and
recurse, and this repeats for *every* consecutive 401 (the retry is
unbounded, not once): after `n` consecutive 401 replies (each refresh
succeeding) followed by a 200 reply, `asset` has issued `n + 1` requests
and `n` token refreshes and returns the entity parsed from the final
reply. -/
theorem asset_retries_every_consecutive_401 (n : Nat) (s : ClientState)
    (reference xn en : String) (errBody body : XmlNode) (tok : String)
    (e : ParsedEntity)
    (hsh : s.sharedSecret = false) (ht : s.tenant ≠ none)
    (hx : s.xipNs = some xn) (he : s.entityNs = some en)
    (hp : entityFromString xn en body = .ok e) :
    (assetOp s reference
      (retryPrefix n errBody tok ++ [.xmlReply 200 body])).result =
        .ok (mkAsset e) ∧
    (assetOp s reference
      (retryPrefix n errBody tok ++ [.xmlReply 200 body])).gets = n + 1 ∧
    (assetOp s reference
      (retryPrefix n errBody tok ++ [.xmlReply 200 body])).refreshes = n := by
  obtain ⟨t0, hrun⟩ := runOp_retryPrefix (assetHandle reference) n errBody tok
    [.xmlReply 200 body] s hsh ht
  have htail : runOp (assetHandle reference) { s with token := t0 }
      [.xmlReply 200 body] =
      ⟨.ok (mkAsset e), { s with token := t0 }, [], 1, 0⟩ := by
    rw [runOp_cons_ne401 _ _ _ _ (by simp [Reply.status])]
    simp [assetHandle, hx, he, hp]
  rw [assetOp, hrun, htail]
  simp [Nat.add_comm]

/-- Witness for C1 (amended) at two retry rounds. -/
theorem asset_retries_every_consecutive_401_witness :
    (assetOp egClient "ref1"
      (retryPrefix 2 egAssetDoc "t" ++ [.xmlReply 200 egAssetDoc])).gets = 3 ∧
    (assetOp egClient "ref1"
      (retryPrefix 2 egAssetDoc "t" ++ [.xmlReply 200 egAssetDoc])).refreshes = 2 ∧
    (assetOp egClient "ref1"
      (retryPrefix 2 egAssetDoc "t" ++ [.xmlReply 200 egAssetDoc])).result =
      .ok (mkAsset egParsed) := by
  have h := asset_retries_every_consecutive_401 2 egClient "ref1" nsXipV6
    nsEntityV6 egAssetDoc egAssetDoc "t" egParsed rfl (by decide) rfl rfl (by rfl)
  exact ⟨h.2.1, h.2.2, h.1⟩

/-! ## Claim C5 -/

/-- A listing body naming one generation. -/
def egGensListDoc : XmlNode :=
  .elem ⟨nsEntityV6, "Generations"⟩ [] none [
    .elem ⟨nsEntityV6, "Generation"⟩ [] (some "http://gen1") []]

/-- A generation body with no bitstreams. -/
def egGenDoc : XmlNode :=
  .elem ⟨"", "GenerationResponse"⟩ [] none [
    .elem ⟨nsXipV6, "Generation"⟩ [("original", "true"), ("active", "true")] none [],
    .elem ⟨nsXipV6, "FormatGroup"⟩ [] (some "fmt") []]

/-- A content object to ask generations for. -/
def egContentObject : PEntity :=
  ⟨some "co1", some "t", none, none, none, [], .contentObject⟩

/-- C5 counterexample: `generations` answers one invocation with *two*
HTTP requests (no token refresh involved): the generations listing plus
one `generation` fetch per listed generation. -/
theorem generations_issues_two_requests :
    (generationsOp egClient egContentObject
      [.xmlReply 200 egGensListDoc, .xmlReply 200 egGenDoc]).gets = 2 ∧
    (generationsOp egClient egContentObject
      [.xmlReply 200 egGensListDoc, .xmlReply 200 egGenDoc]).refreshes = 0 ∧
    (generationsOp egClient egContentObject
      [.xmlReply 200 egGensListDoc, .xmlReply 200 egGenDoc]).result =
      .ok [⟨true, true, some egContentObject, some "fmt", none, []⟩] := by
  refine ⟨rfl, rfl, rfl⟩

theorem assetHandle_gets (reference : String) (s : ClientState) (r : Reply)
    (rest : List Reply) : (assetHandle reference s r rest).gets = 0 := by
  cases r <;> simp only [assetHandle] <;> (repeat' split) <;> rfl

theorem folderHandle_gets (reference : String) (s : ClientState) (r : Reply)
    (rest : List Reply) : (folderHandle reference s r rest).gets = 0 := by
  cases r <;> simp only [folderHandle] <;> (repeat' split) <;> rfl

theorem contentObjectHandle_gets (reference : String) (s : ClientState)
    (r : Reply) (rest : List Reply) :
    (contentObjectHandle reference s r rest).gets = 0 := by
  cases r <;> simp only [contentObjectHandle] <;> (repeat' split) <;> rfl

theorem metadataHandle_gets (uri : String) (s : ClientState) (r : Reply)
    (rest : List Reply) : (metadataHandle uri s r rest).gets = 0 := by
  cases r <;> simp only [metadataHandle] <;> (repeat' split) <;> rfl

theorem childrenHandle_gets (fr : Option String) (s : ClientState) (r : Reply)
    (rest : List Reply) : (childrenHandle fr s r rest).gets = 0 := by
  cases r <;> simp only [childrenHandle] <;> (repeat' split) <;> rfl

theorem identifiersForEntityHandle_gets (s : ClientState) (r : Reply)
    (rest : List Reply) : (identifiersForEntityHandle s r rest).gets = 0 := by
  cases r <;> simp only [identifiersForEntityHandle] <;> (repeat' split) <;> rfl

theorem representationsHandle_gets (asset : PEntity) (s : ClientState)
    (r : Reply) (rest : List Reply) :
    (representationsHandle asset s r rest).gets = 0 := by
  cases r <;> simp only [representationsHandle] <;> (repeat' split) <;> rfl

/-- C5 amended: the *simple* reads (asset, folder, content_object,
metadata, children, identifiers_for_entity, representations on an Asset)
issue exactly one HTTP request per invocation when the first reply is not
a 401; but composite operations issue one further request per listed
sub-resource — `generations`, on a 200 listing naming one generation whose
fetched body lists no bitstreams, issues exactly two requests. -/
theorem one_request_per_simple_read_but_more_for_composite
    (s : ClientState) (reference uri : String) (fr : Option String)
    (maximum : Nat) (nextPage : Option String) (entity asset co : PEntity)
    (r : Reply) (rest : List Reply) (listBody genBody : XmlNode)
    (u : Option String) (ge : XmlNode) (og ac : String) :
    (¬ r.status = 401 →
      (assetOp s reference (r :: rest)).gets = 1 ∧
      (folderOp s reference (r :: rest)).gets = 1 ∧
      (contentObjectOp s reference (r :: rest)).gets = 1 ∧
      (metadataOp s uri (r :: rest)).gets = 1 ∧
      (childrenOp s fr maximum nextPage (r :: rest)).gets = 1 ∧
      (identifiersForEntityOp s entity (r :: rest)).gets = 1 ∧
      (asset.entityType = EntityType.asset →
        (representationsOp s asset (r :: rest)).gets = 1)) ∧
    ((listBody.findallDesc ⟨nsEntityV6, "Generation"⟩).map XmlNode.text = [u] →
     genBody.findDesc ⟨nsXipV6, "Generation"⟩ = some ge →
     ge.attribs.lookup "original" = some og →
     ge.attribs.lookup "active" = some ac →
     genBody.findallDesc ⟨nsEntityV6, "Bitstream"⟩ = [] →
      (generationsOp s co
        (.xmlReply 200 listBody :: .xmlReply 200 genBody :: rest)).gets = 2) := by
  constructor
  · intro h401
    refine ⟨?_, ?_, ?_, ?_, ?_, ?_, ?_⟩
    · rw [assetOp, runOp_cons_ne401 _ _ _ _ h401]
      simp [assetHandle_gets]
    · rw [folderOp, runOp_cons_ne401 _ _ _ _ h401]
      simp [folderHandle_gets]
    · rw [contentObjectOp, runOp_cons_ne401 _ _ _ _ h401]
      simp [contentObjectHandle_gets]
    · rw [metadataOp, runOp_cons_ne401 _ _ _ _ h401]
      simp [metadataHandle_gets]
    · rw [childrenOp, runOp_cons_ne401 _ _ _ _ h401]
      simp [childrenHandle_gets]
    · rw [identifiersForEntityOp, runOp_cons_ne401 _ _ _ _ h401]
      simp [identifiersForEntityHandle_gets]
    · intro hty
      rw [representationsOp]
      simp only [hty]
      rw [if_neg (by simp), runOp_cons_ne401 _ _ _ _ h401]
      simp [representationsHandle_gets]
  · intro hlist hge hog hac hbits
    rw [generationsOp, runOp_cons_ne401 _ _ _ _ (by simp [Reply.status])]
    simp only [generationsHandle, if_pos rfl, hlist]
    have hgen : generationOp s u (.xmlReply 200 genBody :: rest) =
        ⟨.ok ⟨pyBoolOfString og, pyBoolOfString ac, none,
            (genBody.findDesc ⟨nsXipV6, "FormatGroup"⟩).bind XmlNode.text,
            (genBody.findDesc ⟨nsXipV6, "EffectiveDate"⟩).bind XmlNode.text, []⟩,
          s, rest, 1, 0⟩ := by
      rw [generationOp, runOp_cons_ne401 _ _ _ _ (by simp [Reply.status])]
      simp [generationHandle, hge, hog, hac, hbits, runBitstreams]
    simp [runGenerations, hgen]

/-- Witness for C5 (amended) at a concrete client and bodies. -/
theorem one_request_per_simple_read_witness :
    (assetOp egClient "ref1" [.xmlReply 200 egAssetDoc]).gets = 1 ∧
    (generationsOp egClient egContentObject
      [.xmlReply 200 egGensListDoc, .xmlReply 200 egGenDoc]).gets = 2 := by
  have h := one_request_per_simple_read_but_more_for_composite egClient "ref1"
    "u" none 5 none egContentObject egContentObject egContentObject
    (.xmlReply 200 egAssetDoc) [] egGensListDoc egGenDoc (some "http://gen1")
    (.elem ⟨nsXipV6, "Generation"⟩ [("original", "true"), ("active", "true")] none [])
    "true" "true"
  exact ⟨(h.1 (by decide)).1, h.2 (by rfl) (by rfl) (by rfl) (by rfl) (by rfl)⟩

/-! ## Claim C7 -/

theorem assetHandle_state (reference : String) (s : ClientState) (r : Reply)
    (rest : List Reply) : (assetHandle reference s r rest).state = s := by
  cases r <;> simp only [assetHandle] <;> (repeat' split) <;> rfl

theorem folderHandle_state (reference : String) (s : ClientState) (r : Reply)
    (rest : List Reply) : (folderHandle reference s r rest).state = s := by
  cases r <;> simp only [folderHandle] <;> (repeat' split) <;> rfl

theorem contentObjectHandle_state (reference : String) (s : ClientState)
    (r : Reply) (rest : List Reply) :
    (contentObjectHandle reference s r rest).state = s := by
  cases r <;> simp only [contentObjectHandle] <;> (repeat' split) <;> rfl

theorem metadataHandle_state (uri : String) (s : ClientState) (r : Reply)
    (rest : List Reply) : (metadataHandle uri s r rest).state = s := by
  cases r <;> simp only [metadataHandle] <;> (repeat' split) <;> rfl

theorem childrenHandle_state (fr : Option String) (s : ClientState) (r : Reply)
    (rest : List Reply) : (childrenHandle fr s r rest).state = s := by
  cases r <;> simp only [childrenHandle] <;> (repeat' split) <;> rfl

theorem identifiersForEntityHandle_state (s : ClientState) (r : Reply)
    (rest : List Reply) : (identifiersForEntityHandle s r rest).state = s := by
  cases r <;> simp only [identifiersForEntityHandle] <;> (repeat' split) <;> rfl

theorem representationsHandle_state (asset : PEntity) (s : ClientState)
    (r : Reply) (rest : List Reply) :
    (representationsHandle asset s r rest).state = s := by
  cases r <;> simp only [representationsHandle] <;> (repeat' split) <;> rfl

theorem bitstreamHandle_state (s : ClientState) (r : Reply)
    (rest : List Reply) : (bitstreamHandle s r rest).state = s := by
  cases r <;> simp only [bitstreamHandle] <;> (repeat' split) <;> rfl

theorem bitstreamOp_frame (s : ClientState) (url : Option String)
    (trace : List Reply) : frameEq s (bitstreamOp s url trace).state :=
  runOp_frame bitstreamHandle
    (fun s r rest => by rw [bitstreamHandle_state]; exact frameEq_refl s)
    trace s

theorem runBitstreams_frame (urls : List (Option String)) :
    ∀ (s : ClientState) (trace : List Reply),
      frameEq s (runBitstreams s trace urls).state := by
  induction urls with
  | nil => intro s trace; exact frameEq_refl s
  | cons u us ih =>
    intro s trace
    simp only [runBitstreams]
    split
    · exact bitstreamOp_frame s u trace
    · exact frameEq_trans (bitstreamOp_frame s u trace)
        (ih (bitstreamOp s u trace).state (bitstreamOp s u trace).rest)

theorem generationHandle_frame (s : ClientState) (r : Reply)
    (rest : List Reply) : frameEq s (generationHandle s r rest).state := by
  cases r <;> simp only [generationHandle] <;> (repeat' split) <;>
    first
      | exact frameEq_refl _
      | apply runBitstreams_frame

theorem generationOp_frame (s : ClientState) (url : Option String)
    (trace : List Reply) : frameEq s (generationOp s url trace).state :=
  runOp_frame generationHandle generationHandle_frame trace s

theorem runGenerations_frame (co : PEntity) (urls : List (Option String)) :
    ∀ (s : ClientState) (trace : List Reply),
      frameEq s (runGenerations co s trace urls).state := by
  induction urls with
  | nil => intro s trace; exact frameEq_refl s
  | cons u us ih =>
    intro s trace
    simp only [runGenerations]
    split
    · exact generationOp_frame s u trace
    · exact frameEq_trans (generationOp_frame s u trace)
        (ih (generationOp s u trace).state (generationOp s u trace).rest)

theorem generationsHandle_frame (co : PEntity) (s : ClientState) (r : Reply)
    (rest : List Reply) : frameEq s (generationsHandle co s r rest).state := by
  cases r <;> simp only [generationsHandle] <;> (repeat' split) <;>
    first
      | exact frameEq_refl _
      | apply runGenerations_frame

/-- C7 counterexample: a read operation may change more than the token.
With no tenant known, `asset` hitting a 401 refreshes the token, and the
password login handler stores the `tenant` field of the login response on
the client — so `tenant` differs after the read. -/
theorem asset_refresh_stores_tenant :
    egClientNoTenant.tenant = none ∧
    (assetOp egClientNoTenant "ref1"
      [.xmlReply 401 egAssetDoc,
       .jsonReply 200 [("token", "t1"), ("tenant", "TEN")],
       .xmlReply 200 egAssetDoc]).state.tenant = some "TEN" ∧
    (assetOp egClientNoTenant "ref1"
      [.xmlReply 401 egAssetDoc,
       .jsonReply 200 [("token", "t1"), ("tenant", "TEN")],
       .xmlReply 200 egAssetDoc]).result = .ok (mkAsset egParsed) := by
  refine ⟨rfl, rfl, rfl⟩

/-- C7 amended: every listed read operation (asset, folder,
content_object, metadata, children, identifiers_for_entity,
representations, generations) leaves every client attribute unchanged
except possibly `token` and `tenant` (the password token refresh stores
the login response's tenant when none was known); no response data is
cached in any other attribute. -/
theorem reads_change_only_token_and_tenant (s : ClientState)
    (reference uri : String) (fr : Option String) (maximum : Nat)
    (nextPage : Option String) (entity asset co : PEntity)
    (trace : List Reply) :
    frameEq s (assetOp s reference trace).state ∧
    frameEq s (folderOp s reference trace).state ∧
    frameEq s (contentObjectOp s reference trace).state ∧
    frameEq s (metadataOp s uri trace).state ∧
    frameEq s (childrenOp s fr maximum nextPage trace).state ∧
    frameEq s (identifiersForEntityOp s entity trace).state ∧
    frameEq s (representationsOp s asset trace).state ∧
    frameEq s (generationsOp s co trace).state := by
  refine ⟨?_, ?_, ?_, ?_, ?_, ?_, ?_, ?_⟩
  · exact runOp_frame (assetHandle reference)
      (fun s r rest => by rw [assetHandle_state]; exact frameEq_refl s) trace s
  · exact runOp_frame (folderHandle reference)
      (fun s r rest => by rw [folderHandle_state]; exact frameEq_refl s) trace s
  · exact runOp_frame (contentObjectHandle reference)
      (fun s r rest => by rw [contentObjectHandle_state]; exact frameEq_refl s)
      trace s
  · exact runOp_frame (metadataHandle uri)
      (fun s r rest => by rw [metadataHandle_state]; exact frameEq_refl s) trace s
  · exact runOp_frame (childrenHandle fr)
      (fun s r rest => by rw [childrenHandle_state]; exact frameEq_refl s) trace s
  · exact runOp_frame identifiersForEntityHandle
      (fun s r rest => by rw [identifiersForEntityHandle_state]; exact frameEq_refl s)
      trace s
  · rw [representationsOp]
    split
    · exact frameEq_refl s
    · exact runOp_frame (representationsHandle asset)
        (fun s r rest => by rw [representationsHandle_state]; exact frameEq_refl s)
        trace s
  · exact runOp_frame (generationsHandle co) (generationsHandle_frame co) trace s

/-! ## Claim C6: helper lemmas -/

theorem lookup_append_left {α β : Type} [BEq α] {k : α} {v : β}
    {l1 l2 : List (α × β)} (h : List.lookup k l1 = some v) :
    List.lookup k (l1 ++ l2) = some v := by
  induction l1 with
  | nil => simp [List.lookup] at h
  | cons p rest ih =>
    obtain ⟨k1, v1⟩ := p
    rw [List.cons_append]
    cases hk : (k == k1) <;> simp only [List.lookup, hk] at h ⊢
    · exact ih h
    · exact h

theorem dictInsert_eq_append {α β : Type} [DecidableEq α] {k : α} (v : β)
    {l : List (α × β)} (h : k ∉ l.map Prod.fst) :
    dictInsert k v l = l ++ [(k, v)] := by
  induction l with
  | nil => rfl
  | cons p rest ih =>
    have h1 : ¬ p.1 = k := fun he => h (by simp [he])
    have h2 : k ∉ rest.map Prod.fst := fun hc => h (by simp [hc])
    rw [dictInsert, if_neg h1, List.cons_append, ih h2]

theorem lookup_dictInsert_self {α β : Type} [DecidableEq α] [BEq α]
    [LawfulBEq α] (k : α) (v : β) (l : List (α × β)) :
    List.lookup k (dictInsert k v l) = some v := by
  induction l with
  | nil => simp [dictInsert, List.lookup]
  | cons p rest ih =>
    rw [dictInsert]
    split <;> rename_i hk
    · rw [List.lookup]
      simp [hk]
    · rw [List.lookup]
      have : (k == p.1) = false := by
        simp
        exact fun he => hk he.symm
      simp [this]
      exact ih

/-- The number of direct children with an unqualified tag. -/
def countTag (cs : List XmlNode) (t : String) : Nat :=
  (cs.filter (fun e => e.tag = uq t)).length

theorem countTag_append (a b : List XmlNode) (t : String) :
    countTag (a ++ b) t = countTag a t + countTag b t := by
  simp [countTag, List.filter_append]

theorem countTag_all_eq {cs : List XmlNode} {t : String}
    (h : ∀ e ∈ cs, e.tag = uq t) : countTag cs t = cs.length := by
  unfold countTag
  rw [List.filter_eq_self.2 (fun e he => by simp [h e he])]

theorem countTag_none {cs : List XmlNode} {t : String}
    (h : ∀ e ∈ cs, ¬ e.tag = uq t) : countTag cs t = 0 := by
  unfold countTag
  rw [List.filter_eq_nil_iff.2 (fun e he => by simp [h e he])]
  rfl

theorem countTag_nil (t : String) : countTag [] t = 0 := rfl

/-- `bitstreamStage` succeeds on existing files and yields one `Bitstream`
element per pair. -/
theorem bitstreamStage_ok (fs : FS) (cb : String → FsPath → FixityResult)
    (pairs : List (String × FsPath))
    (h : ∀ pr ∈ pairs, fsIsFile fs pr.2 = true) :
    ∃ bl, bitstreamStage fs cb pairs = .ok bl ∧ bl.length = pairs.length ∧
      ∀ b ∈ bl, b.tag = uq "Bitstream" := by
  induction pairs with
  | nil => exact ⟨[], rfl, rfl, by simp⟩
  | cons pr rest ih =>
    obtain ⟨bl, hbl, hlen, htags⟩ := ih (fun q hq => h q (by simp [hq]))
    have hex := h pr (by simp)
    unfold fsIsFile at hex
    cases hd : fsLookupFile fs pr.2 with
    | none => rw [hd] at hex; simp at hex
    | some d =>
      have hmb : ∃ be, makeBitstream fs (fsBasename pr.2) pr.2 cb = .ok be ∧
          be.tag = uq "Bitstream" := by
        simp only [makeBitstream, hd]
        exact ⟨_, rfl, rfl⟩
      obtain ⟨be, hbe, hbetag⟩ := hmb
      refine ⟨be :: bl, ?_, by simp [hlen], ?_⟩
      · rw [bitstreamStage]
        simp only [bind, Except.bind, hbe, hbl]
        rfl
      · intro b hb
        rcases List.mem_cons.1 hb with hb | hb
        · rw [hb]; exact hbetag
        · exact htags b hb

/-- `identifierStage` with the XIP tree present: one `Identifier` element
per truthy pair. -/
theorem identifierStage_ok (ioRef : Option String)
    (m : List (String × String)) :
    ∃ il, identifierStage ioRef true m = .ok il ∧
      il.length = (m.filter
        (fun pr => pyBoolOfString pr.1 && pyBoolOfString pr.2)).length ∧
      ∀ e ∈ il, e.tag = uq "Identifier" := by
  induction m with
  | nil => exact ⟨[], rfl, rfl, by simp⟩
  | cons pr rest ih =>
    obtain ⟨il, hil, hlen, htags⟩ := ih
    by_cases hpr : pyBoolOfString pr.1 ∧ pyBoolOfString pr.2
    · refine ⟨XmlNode.elem (uq "Identifier") [] none
          [leaf "Type" (some pr.1), leaf "Value" (some pr.2),
           leaf "Entity" ioRef] :: il, ?_, ?_, ?_⟩
      · rw [identifierStage, if_pos hpr, if_neg (by simp)]
        simp only [bind, Except.bind, hil]
        rfl
      · simp [List.filter_cons, hpr.1, hpr.2, hlen]
      · intro e he
        rcases List.mem_cons.1 he with he | he
        · rw [he]; rfl
        · exact htags e he
    · refine ⟨il, ?_, ?_, htags⟩
      · rw [identifierStage, if_neg hpr]
        exact hil
      · have : (pyBoolOfString pr.1 && pyBoolOfString pr.2) = false := by
          by_contra hc
          simp at hc
          exact hpr ⟨hc.1, hc.2⟩
        simp [List.filter_cons, this, hlen]

/-- `metadataStage` with the XIP tree present, on truthy string-sourced
entries: one `Metadata` element per entry. -/
theorem metadataStage_ok (refs : Nat → String) (ioRef : Option String)
    (fs : FS) (m : List (String × MetaSource))
    (h : ∀ pr ∈ m, pyBoolOfString pr.1 = true ∧
      ∃ x, pr.2 = MetaSource.xmlString x) :
    ∀ k, ∃ ml, metadataStage refs k ioRef true fs m = .ok (ml, k + m.length) ∧
      ml.length = m.length ∧ ∀ e ∈ ml, e.tag = uq "Metadata" := by
  induction m with
  | nil => intro k; exact ⟨[], by simp [metadataStage], rfl, by simp⟩
  | cons pr rest ih =>
    intro k
    obtain ⟨hb, x, hx⟩ := h pr (by simp)
    obtain ⟨nsv, srcv⟩ := pr
    subst hx
    obtain ⟨ml, hml, hlen, htags⟩ := ih (fun q hq => h q (by simp [hq])) (k + 1)
    refine ⟨metadataElem nsv (refs k) ioRef x :: ml, ?_, ?_, ?_⟩
    · rw [metadataStage]
      rw [if_pos ⟨hb, rfl⟩, if_neg (by decide)]
      simp only [bind, Except.bind, hml]
      have harith : k + 1 + rest.length = k + (rest.length + 1) := by omega
      simp only [harith]
      rfl
    · simp [hlen]
    · intro e he
      rcases List.mem_cons.1 he with he | he
      · rw [he]; rfl
      · exact htags e he

/-- `copyStage` on fresh, distinct destinations: it appends one copy per
pair, reading the sources from the starting filesystem. -/
theorem lookup_append_right {α β : Type} [BEq α] {k : α}
    {l1 l2 : List (α × β)} (h : List.lookup k l1 = none) :
    List.lookup k (l1 ++ l2) = List.lookup k l2 := by
  induction l1 with
  | nil => rfl
  | cons p rest ih =>
    obtain ⟨k1, v1⟩ := p
    rw [List.cons_append]
    cases hk : (k == k1) <;> simp only [List.lookup, hk] at h ⊢
    · exact ih h
    · simp at h

theorem copyStage_ok (contentDir : FsPath) :
    ∀ (pairs : List (String × FsPath)) (fsA : FS),
    (∀ pr ∈ pairs, (fsLookupFile fsA pr.2).isSome = true) →
    (∀ pr ∈ pairs, ¬ contentDir.isPrefixOf pr.2 = true) →
    (∀ pr ∈ pairs, (contentDir ++ [fsBasename pr.2]) ∉ fsA.files.map Prod.fst) →
    (pairs.map (fun pr => fsBasename pr.2)).Nodup →
    copyStage contentDir fsA pairs = .ok
      ⟨fsA.dirs, fsA.files ++ pairs.map (fun pr =>
        (contentDir ++ [fsBasename pr.2],
         (fsLookupFile fsA pr.2).getD (.bytes "")))⟩ := by
  intro pairs
  induction pairs with
  | nil => intro fsA h1 h2 h3 h4; simp [copyStage]
  | cons pr rest ih =>
    intro fsA h1 h2 h3 h4
    have hex := h1 pr (by simp)
    cases hd : fsLookupFile fsA pr.2 with
    | none => rw [hd] at hex; simp at hex
    | some d =>
      have hstep : fsCopyFile fsA pr.2 (contentDir ++ [fsBasename pr.2]) =
          .ok ⟨fsA.dirs, fsA.files ++ [(contentDir ++ [fsBasename pr.2], d)]⟩ := by
        simp only [fsCopyFile, hd]
        simp [fsWrite, dictInsert_eq_append d (h3 pr (by simp))]
      rw [copyStage]
      simp only [bind, Except.bind, hstep]
      have hlook : ∀ q ∈ rest,
          fsLookupFile
            ⟨fsA.dirs, fsA.files ++ [(contentDir ++ [fsBasename pr.2], d)]⟩ q.2 =
            fsLookupFile fsA q.2 := by
        intro q hq
        have hq2 := h2 q (List.mem_cons_of_mem pr hq)
        show List.lookup q.2 (fsA.files ++ [(contentDir ++ [fsBasename pr.2], d)]) = _
        cases hl : fsLookupFile fsA q.2 with
        | some w => exact lookup_append_left hl
        | none =>
          have hne2 : (q.2 == contentDir ++ [fsBasename pr.2]) = false := by
            rw [beq_eq_false_iff_ne]
            intro he
            exact hq2 (by rw [he]; simp [List.isPrefixOf_iff_prefix])
          rw [lookup_append_right hl]
          simp [List.lookup, hne2]
      rw [List.map_cons] at h4
      have hnodup := List.nodup_cons.1 h4
      have hrec := ih ⟨fsA.dirs, fsA.files ++ [(contentDir ++ [fsBasename pr.2], d)]⟩
        (fun q hq => by rw [hlook q hq]; exact h1 q (by simp [hq]))
        (fun q hq => h2 q (by simp [hq]))
        (fun q hq => by
          simp only [List.map_append, List.mem_append]
          intro hc
          cases hc with
          | inl hc => exact h3 q (by simp [hq]) hc
          | inr hc =>
            simp at hc
            have heq : fsBasename q.2 = fsBasename pr.2 := hc
            exact hnodup.1 (heq ▸ List.mem_map_of_mem (fun z => fsBasename z.2) hq))
        hnodup.2
      rw [hrec]
      have hmap : rest.map (fun q => (contentDir ++ [fsBasename q.2],
          (fsLookupFile
            ⟨fsA.dirs, fsA.files ++ [(contentDir ++ [fsBasename pr.2], d)]⟩ q.2).getD
            (.bytes ""))) =
          rest.map (fun q => (contentDir ++ [fsBasename q.2],
            (fsLookupFile fsA q.2).getD (.bytes ""))) :=
        List.map_congr_left (fun q hq => by rw [hlook q hq])
      simp only [hmap, List.map_cons, hd]
      simp [List.append_assoc]

theorem lookup_isSome_mem {α β : Type} [BEq α] [LawfulBEq α] {k : α}
    {l : List (α × β)} (h : (List.lookup k l).isSome = true) :
    k ∈ l.map Prod.fst := by
  induction l with
  | nil => simp [List.lookup] at h
  | cons p rest ih =>
    obtain ⟨k1, v1⟩ := p
    cases hk : (k == k1) <;> simp only [List.lookup, hk] at h
    · simpa using Or.inr (ih h)
    · simp [(by simpa using hk : k = k1)]

theorem lookup_eq_none_of_not_mem {α β : Type} [BEq α] [LawfulBEq α] {k : α}
    {l : List (α × β)} (h : k ∉ l.map Prod.fst) : List.lookup k l = none := by
  cases hl : List.lookup k l with
  | none => rfl
  | some v => exact absurd (lookup_isSome_mem (by simp [hl])) h

theorem isPrefixOf_self (l : List String) : l.isPrefixOf l = true := by
  simp [List.isPrefixOf_iff_prefix]

theorem isPrefixOf_append_any (l x : List String) :
    l.isPrefixOf (l ++ x) = true := by
  simp [List.isPrefixOf_iff_prefix]

theorem isPrefixOf_of_append_isPrefixOf {t x p : List String}
    (h : (t ++ x).isPrefixOf p = true) : t.isPrefixOf p = true := by
  rw [List.isPrefixOf_iff_prefix] at h ⊢
  exact List.IsPrefix.trans (List.prefix_append t x) h

theorem zip_name_ne (R : String) : ¬ R = R ++ ".zip" := by
  intro h
  have h2 := congrArg String.length h
  simp [String.length_append] at h2
  exact absurd h2 (by decide)

theorem top_not_prefix_zip (eD : List String) (R : String) :
    ((eD ++ [R]).isPrefixOf (eD ++ [R ++ ".zip"])) = false := by
  rw [Bool.eq_false_iff]
  intro h
  rw [List.isPrefixOf_iff_prefix] at h
  rcases h with ⟨t, ht⟩
  rw [List.append_assoc] at ht
  have h2 := List.append_cancel_left ht
  rcases (List.cons_eq_cons.1 h2).1 with h3
  exact zip_name_ne R h3

theorem fsMkdir_fresh (fs : FS) (p : FsPath)
    (hnd : p ∉ fs.dirs) (hnf : p ∉ fs.files.map Prod.fst)
    (hparent : fsIsDir fs p.dropLast = true) :
    fsMkdir fs p = .ok ⟨p :: fs.dirs, fs.files⟩ := by
  have h1 : fsIsDir fs p = false := by
    rw [fsIsDir, List.contains_eq_any_beq]
    simp only [List.any_eq_false]
    intro d hd he
    have hpd : p = d := by simpa using he
    exact hnd (hpd ▸ hd)
  have h2 : fsIsFile fs p = false := by
    rw [fsIsFile, fsLookupFile, lookup_eq_none_of_not_mem hnf]
    rfl
  rw [fsMkdir, if_neg (by simp [h1, h2]), if_neg (by simp [hparent])]

/-- `make_archive` on the staging directory followed by `rmtree`: the
staged entries become the relative entries of the new zip file, the
staging directories disappear, and everything else survives. -/
theorem archive_and_clean (exportDir : FsPath) (R : String) (fs : FS)
    (staged : List (FsPath × FileData)) (extraDirs : List FsPath)
    (hff : ∀ pr ∈ fs.files, ¬ (exportDir ++ [R]).isPrefixOf pr.1 = true)
    (hfd : ∀ d ∈ fs.dirs, ¬ (exportDir ++ [R]).isPrefixOf d = true)
    (hzf : (exportDir ++ [R ++ ".zip"]) ∉ fs.files.map Prod.fst)
    (hst : ∀ pr ∈ staged, (exportDir ++ [R]).isPrefixOf pr.1 = true)
    (hed : ∀ d ∈ extraDirs, (exportDir ++ [R]).isPrefixOf d = true) :
    fsRmtree (fsMakeArchive ⟨extraDirs ++ fs.dirs, fs.files ++ staged⟩
        (exportDir ++ [R]) (exportDir ++ [R])) (exportDir ++ [R]) =
      ⟨fs.dirs, fs.files ++ [(exportDir ++ [R ++ ".zip"],
        .zipArchive (staged.map
          (fun pr => (pr.1.drop (exportDir ++ [R]).length, pr.2))))]⟩ := by
  have hzp : zipPathOf (exportDir ++ [R]) = exportDir ++ [R ++ ".zip"] := by
    simp [zipPathOf]
  have hfu : fsFilesUnder ⟨extraDirs ++ fs.dirs, fs.files ++ staged⟩
      (exportDir ++ [R]) =
      staged.map (fun pr => (pr.1.drop (exportDir ++ [R]).length, pr.2)) := by
    rw [fsFilesUnder]
    show ((fs.files ++ staged).filter _).map _ = _
    have e1 : (fs.files).filter
        (fun e => (exportDir ++ [R]).isPrefixOf e.1) = [] :=
      List.filter_eq_nil_iff.2 (fun e he => by simpa using hff e he)
    have e2 : staged.filter
        (fun e => (exportDir ++ [R]).isPrefixOf e.1) = staged :=
      List.filter_eq_self.2 (fun e he => by simpa using hst e he)
    rw [List.filter_append, e1, e2]
    simp
  have hznotst : (exportDir ++ [R ++ ".zip"]) ∉
      (fs.files ++ staged).map Prod.fst := by
    rw [List.map_append, List.mem_append]
    intro hc
    cases hc with
    | inl hc => exact hzf hc
    | inr hc =>
      rcases List.mem_map.1 hc with ⟨pr, hpr, hpe⟩
      have hp := hst pr hpr
      rw [hpe] at hp
      rw [top_not_prefix_zip exportDir R] at hp
      exact Bool.false_ne_true hp
  rw [fsMakeArchive, hzp, hfu, fsWrite]
  show fsRmtree ⟨extraDirs ++ fs.dirs, dictInsert _ _ (fs.files ++ staged)⟩ _ = _
  rw [dictInsert_eq_append _ hznotst]
  rw [fsRmtree]
  have hznp : (exportDir ++ [R]).isPrefixOf (exportDir ++ [R ++ ".zip"]) = false :=
    top_not_prefix_zip exportDir R
  congr 1
  · show (extraDirs ++ fs.dirs).filter _ = fs.dirs
    have e3 : extraDirs.filter
        (fun d => !(exportDir ++ [R]).isPrefixOf d) = [] :=
      List.filter_eq_nil_iff.2 (fun d hd => by simpa using hed d hd)
    have e4 : (fs.dirs).filter
        (fun d => !(exportDir ++ [R]).isPrefixOf d) = fs.dirs :=
      List.filter_eq_self.2 (fun d hd => by
        cases hb : (exportDir ++ [R]).isPrefixOf d with
        | false => rfl
        | true => exact absurd hb (hfd d hd))
    rw [show (fun d => decide ¬ (exportDir ++ [R]).isPrefixOf d = true) =
        (fun d : FsPath => !(exportDir ++ [R]).isPrefixOf d) from
      funext (fun d => by cases h : (exportDir ++ [R]).isPrefixOf d <;>
        simp [h])]
    rw [List.filter_append, e3, e4]
    rfl
  · show ((fs.files ++ staged) ++ _).filter _ = _
    have e5 : (fs.files).filter
        (fun e : FsPath × FileData =>
          !(exportDir ++ [R]).isPrefixOf e.1) = fs.files :=
      List.filter_eq_self.2 (fun e he => by
        cases hb : (exportDir ++ [R]).isPrefixOf e.1 with
        | false => rfl
        | true => exact absurd hb (hff e he))
    have e6 : staged.filter
        (fun e : FsPath × FileData =>
          !(exportDir ++ [R]).isPrefixOf e.1) = [] :=
      List.filter_eq_nil_iff.2 (fun e he => by simpa using hst e he)
    rw [show (fun e : FsPath × FileData =>
        decide ¬ (exportDir ++ [R]).isPrefixOf e.1 = true) =
        (fun e : FsPath × FileData => !(exportDir ++ [R]).isPrefixOf e.1) from
      funext (fun e => by cases h : (exportDir ++ [R]).isPrefixOf e.1 <;>
        simp [h])]
    rw [List.filter_append, List.filter_append, e5, e6]
    simp [List.filter, hznp]

/-- The staging tail on an export directory that exists, a staging name
fresh in the filesystem, sources that exist and carry distinct basenames:
it produces exactly the zip file of the staged tree and removes the
staging directory. -/
theorem packageStaging_ok (exportDir : FsPath) (R : String)
    (C : List XmlNode) (pairs : List (String × FsPath)) (fs : FS)
    (hdir : fsIsDir fs exportDir = true)
    (hfd : ∀ d ∈ fs.dirs, ¬ (exportDir ++ [R]).isPrefixOf d = true)
    (hff : ∀ pr ∈ fs.files, ¬ (exportDir ++ [R]).isPrefixOf pr.1 = true)
    (hzf : (exportDir ++ [R ++ ".zip"]) ∉ fs.files.map Prod.fst)
    (hsrc : ∀ pr ∈ pairs, fsIsFile fs pr.2 = true)
    (hnodup : (pairs.map (fun pr => fsBasename pr.2)).Nodup) :
    packageStaging exportDir R C pairs [] fs = .ok
      (some (exportDir ++ [R ++ ".zip"]),
       ⟨fs.dirs, fs.files ++ [(exportDir ++ [R ++ ".zip"],
          .zipArchive (([R, "metadata.xml"], FileData.xmlDoc (xipRoot C)) ::
            pairs.map (fun pr => ([R, "content", fsBasename pr.2],
              (fsLookupFile fs pr.2).getD (.bytes "")))))]⟩) := by
  have hkeyff : ∀ p : FsPath, (exportDir ++ [R]).isPrefixOf p = true →
      p ∉ fs.files.map Prod.fst := by
    intro p hp hmem
    rcases List.mem_map.1 hmem with ⟨pr, hpr, hpe⟩
    exact hff pr hpr (hpe ▸ hp)
  have hsrcSome : ∀ pr ∈ pairs,
      (List.lookup pr.2 fs.files).isSome = true := by
    intro pr hpr
    simpa [fsIsFile, fsLookupFile] using hsrc pr hpr
  have hsrcNotTop : ∀ pr ∈ pairs,
      ¬ (exportDir ++ [R]).isPrefixOf pr.2 = true := by
    intro pr hpr hp
    exact hkeyff pr.2 hp (lookup_isSome_mem (hsrcSome pr hpr))
  have hpre2 : (exportDir ++ [R]).isPrefixOf ((exportDir ++ [R]) ++ [R]) = true :=
    isPrefixOf_append_any _ _
  have hpre3 : (exportDir ++ [R]).isPrefixOf
      (((exportDir ++ [R]) ++ [R]) ++ ["content"]) = true := by
    rw [List.append_assoc]
    exact isPrefixOf_append_any _ _
  have hpreMeta : (exportDir ++ [R]).isPrefixOf
      (((exportDir ++ [R]) ++ [R]) ++ ["metadata.xml"]) = true := by
    rw [List.append_assoc]
    exact isPrefixOf_append_any _ _
  have hpreDst : ∀ bn : String, (exportDir ++ [R]).isPrefixOf
      ((((exportDir ++ [R]) ++ [R]) ++ ["content"]) ++ [bn]) = true := by
    intro bn
    rw [List.append_assoc, List.append_assoc]
    exact isPrefixOf_append_any _ _
  have hm1 : fsMkdir fs (exportDir ++ [R]) =
      .ok ⟨(exportDir ++ [R]) :: fs.dirs, fs.files⟩ := by
    refine fsMkdir_fresh fs _ ?_ (hkeyff _ (isPrefixOf_self _)) ?_
    · intro hmem
      exact hfd _ hmem (isPrefixOf_self _)
    · rw [show (exportDir ++ [R]).dropLast = exportDir by simp]
      exact hdir
  have hm2 : fsMkdir ⟨(exportDir ++ [R]) :: fs.dirs, fs.files⟩
      ((exportDir ++ [R]) ++ [R]) =
      .ok ⟨((exportDir ++ [R]) ++ [R]) :: (exportDir ++ [R]) :: fs.dirs,
        fs.files⟩ := by
    refine fsMkdir_fresh _ _ ?_ (hkeyff _ hpre2) ?_
    · intro hmem
      rcases List.mem_cons.1 hmem with he | hmem
      · have := congrArg List.length he
        simp at this
      · exact hfd _ hmem hpre2
    · show fsIsDir _ ((exportDir ++ [R]) ++ [R]).dropLast = true
      rw [show ((exportDir ++ [R]) ++ [R]).dropLast = exportDir ++ [R] by simp]
      simp [fsIsDir]
  have hm3 : fsMkdir
      ⟨((exportDir ++ [R]) ++ [R]) :: (exportDir ++ [R]) :: fs.dirs, fs.files⟩
      (((exportDir ++ [R]) ++ [R]) ++ ["content"]) =
      .ok ⟨(((exportDir ++ [R]) ++ [R]) ++ ["content"]) ::
        ((exportDir ++ [R]) ++ [R]) :: (exportDir ++ [R]) :: fs.dirs,
        fs.files⟩ := by
    refine fsMkdir_fresh _ _ ?_ (hkeyff _ hpre3) ?_
    · intro hmem
      rcases List.mem_cons.1 hmem with he | hmem
      · have := congrArg List.length he
        simp at this
      · rcases List.mem_cons.1 hmem with he | hmem
        · have := congrArg List.length he
          simp at this
        · exact hfd _ hmem hpre3
    · show fsIsDir _ ((((exportDir ++ [R]) ++ [R]) ++ ["content"])).dropLast = true
      rw [show ((((exportDir ++ [R]) ++ [R]) ++ ["content"])).dropLast =
        (exportDir ++ [R]) ++ [R] by simp]
      simp [fsIsDir]
  have hw : fsWrite
      ⟨(((exportDir ++ [R]) ++ [R]) ++ ["content"]) ::
        ((exportDir ++ [R]) ++ [R]) :: (exportDir ++ [R]) :: fs.dirs, fs.files⟩
      (((exportDir ++ [R]) ++ [R]) ++ ["metadata.xml"])
      (.xmlDoc (xipRoot C)) =
      ⟨(((exportDir ++ [R]) ++ [R]) ++ ["content"]) ::
        ((exportDir ++ [R]) ++ [R]) :: (exportDir ++ [R]) :: fs.dirs,
       fs.files ++ [((((exportDir ++ [R]) ++ [R]) ++ ["metadata.xml"]),
        FileData.xmlDoc (xipRoot C))]⟩ := by
    rw [fsWrite]
    rw [dictInsert_eq_append _ (hkeyff _ hpreMeta)]
  have hstab : ∀ pr ∈ pairs,
      fsLookupFile ⟨(((exportDir ++ [R]) ++ [R]) ++ ["content"]) ::
        ((exportDir ++ [R]) ++ [R]) :: (exportDir ++ [R]) :: fs.dirs,
        fs.files ++ [((((exportDir ++ [R]) ++ [R]) ++ ["metadata.xml"]),
          FileData.xmlDoc (xipRoot C))]⟩ pr.2 = fsLookupFile fs pr.2 := by
    intro pr hpr
    have hsome := hsrcSome pr hpr
    cases hl : List.lookup pr.2 fs.files with
    | none => rw [hl] at hsome; simp at hsome
    | some w =>
      show List.lookup pr.2 _ = _
      rw [lookup_append_left hl]
      simp [fsLookupFile, hl]
  have hcopy : copyStage (((exportDir ++ [R]) ++ [R]) ++ ["content"])
      ⟨(((exportDir ++ [R]) ++ [R]) ++ ["content"]) ::
        ((exportDir ++ [R]) ++ [R]) :: (exportDir ++ [R]) :: fs.dirs,
       fs.files ++ [((((exportDir ++ [R]) ++ [R]) ++ ["metadata.xml"]),
         FileData.xmlDoc (xipRoot C))]⟩ pairs = .ok
      ⟨(((exportDir ++ [R]) ++ [R]) ++ ["content"]) ::
        ((exportDir ++ [R]) ++ [R]) :: (exportDir ++ [R]) :: fs.dirs,
       (fs.files ++ [((((exportDir ++ [R]) ++ [R]) ++ ["metadata.xml"]),
         FileData.xmlDoc (xipRoot C))]) ++ pairs.map (fun pr =>
          ((((exportDir ++ [R]) ++ [R]) ++ ["content"]) ++ [fsBasename pr.2],
           (fsLookupFile fs pr.2).getD (.bytes "")))⟩ := by
    have h := copyStage_ok ((((exportDir ++ [R]) ++ [R])) ++ ["content"]) pairs
      ⟨(((exportDir ++ [R]) ++ [R]) ++ ["content"]) ::
        ((exportDir ++ [R]) ++ [R]) :: (exportDir ++ [R]) :: fs.dirs,
       fs.files ++ [((((exportDir ++ [R]) ++ [R]) ++ ["metadata.xml"]),
         FileData.xmlDoc (xipRoot C))]⟩
      (fun pr hpr => by
        show (fsLookupFile _ pr.2).isSome = true
        rw [hstab pr hpr]
        exact hsrcSome pr hpr)
      (fun pr hpr hp =>
        hsrcNotTop pr hpr (isPrefixOf_of_append_isPrefixOf
          (by rw [← List.append_assoc]; exact hp)))
      (fun pr hpr => by
        show _ ∉ (fs.files ++ _).map Prod.fst
        simp only [List.map_append, List.mem_append]
        intro hc
        cases hc with
        | inl hc => exact hkeyff _ (hpreDst (fsBasename pr.2)) hc
        | inr hc =>
          simp only [List.map_cons, List.map_nil, List.mem_singleton] at hc
          have := congrArg List.length hc
          simp at this)
      hnodup
    have hmapfix : pairs.map (fun pr =>
        ((((exportDir ++ [R]) ++ [R]) ++ ["content"]) ++ [fsBasename pr.2],
         (fsLookupFile ⟨(((exportDir ++ [R]) ++ [R]) ++ ["content"]) ::
            ((exportDir ++ [R]) ++ [R]) :: (exportDir ++ [R]) :: fs.dirs,
            fs.files ++ [((((exportDir ++ [R]) ++ [R]) ++ ["metadata.xml"]),
              FileData.xmlDoc (xipRoot C))]⟩ pr.2).getD (.bytes ""))) =
        pairs.map (fun pr =>
          ((((exportDir ++ [R]) ++ [R]) ++ ["content"]) ++ [fsBasename pr.2],
           (fsLookupFile fs pr.2).getD (.bytes ""))) :=
      List.map_congr_left (fun pr hpr => by rw [hstab pr hpr])
    rw [hmapfix] at h
    exact h
  have hstaged : ∀ pr ∈ ([((((exportDir ++ [R]) ++ [R]) ++ ["metadata.xml"]),
      FileData.xmlDoc (xipRoot C))] ++ pairs.map (fun pr =>
        ((((exportDir ++ [R]) ++ [R]) ++ ["content"]) ++ [fsBasename pr.2],
         (fsLookupFile fs pr.2).getD (.bytes "")))),
      (exportDir ++ [R]).isPrefixOf pr.1 = true := by
    intro pr hpr
    rcases List.mem_append.1 hpr with hpr | hpr
    · rcases List.mem_singleton.1 hpr with rfl
      exact hpreMeta
    · rcases List.mem_map.1 hpr with ⟨q, hq, rfl⟩
      exact hpreDst (fsBasename q.2)
  have hclean := archive_and_clean exportDir R fs
    ([((((exportDir ++ [R]) ++ [R]) ++ ["metadata.xml"]),
      FileData.xmlDoc (xipRoot C))] ++ pairs.map (fun pr =>
        ((((exportDir ++ [R]) ++ [R]) ++ ["content"]) ++ [fsBasename pr.2],
         (fsLookupFile fs pr.2).getD (.bytes ""))))
    [(((exportDir ++ [R]) ++ [R]) ++ ["content"]),
     ((exportDir ++ [R]) ++ [R]), (exportDir ++ [R])]
    hff hfd hzf hstaged
    (by
      intro d hd
      rcases List.mem_cons.1 hd with rfl | hd
      · exact hpre3
      · rcases List.mem_cons.1 hd with rfl | hd
        · exact hpre2
        · rcases List.mem_singleton.1 hd with rfl
          exact isPrefixOf_self _)
  have hentries : (([((((exportDir ++ [R]) ++ [R]) ++ ["metadata.xml"]),
      FileData.xmlDoc (xipRoot C))] ++ pairs.map (fun pr =>
        ((((exportDir ++ [R]) ++ [R]) ++ ["content"]) ++ [fsBasename pr.2],
         (fsLookupFile fs pr.2).getD (.bytes "")))).map
       (fun pr => (pr.1.drop (exportDir ++ [R]).length, pr.2))) =
      (([R, "metadata.xml"], FileData.xmlDoc (xipRoot C)) ::
        pairs.map (fun pr => ([R, "content", fsBasename pr.2],
          (fsLookupFile fs pr.2).getD (.bytes "")))) := by
    rw [List.map_append, List.map_map, List.map_cons, List.map_nil]
    show (_ :: ([] ++ _)) = _
    rw [List.nil_append]
    congr 1
    · show ((((exportDir ++ [R]) ++ [R]) ++ ["metadata.xml"]).drop
        (exportDir ++ [R]).length, FileData.xmlDoc (xipRoot C)) = _
      rw [List.append_assoc (exportDir ++ [R]) [R] ["metadata.xml"],
        List.drop_left]
      rfl
    · refine List.map_congr_left (fun pr hpr => ?_)
      show (((((exportDir ++ [R]) ++ [R]) ++ ["content"]) ++
        [fsBasename pr.2]).drop (exportDir ++ [R]).length,
        (fsLookupFile fs pr.2).getD (.bytes "")) = _
      rw [List.append_assoc ((exportDir ++ [R]) ++ [R]) ["content"]
          [fsBasename pr.2],
        List.append_assoc (exportDir ++ [R]) [R]
          (["content"] ++ [fsBasename pr.2]),
        List.drop_left]
      rfl
  rw [hentries] at hclean
  have hzp2 : zipPathOf (exportDir ++ [R]) = exportDir ++ [R ++ ".zip"] := by
    simp [zipPathOf]
  rw [packageStaging]
  simp only [bind, Except.bind, hm1, hm2, hm3, hw, hcopy, copyStage,
    pure, Except.pure]
  rw [hzp2]
  have hshape : (⟨(((exportDir ++ [R]) ++ [R]) ++ ["content"]) ::
      ((exportDir ++ [R]) ++ [R]) :: (exportDir ++ [R]) :: fs.dirs,
      (fs.files ++ [((((exportDir ++ [R]) ++ [R]) ++ ["metadata.xml"]),
        FileData.xmlDoc (xipRoot C))]) ++ pairs.map (fun pr =>
          ((((exportDir ++ [R]) ++ [R]) ++ ["content"]) ++ [fsBasename pr.2],
           (fsLookupFile fs pr.2).getD (.bytes "")))⟩ : FS) =
      ⟨[(((exportDir ++ [R]) ++ [R]) ++ ["content"]),
        ((exportDir ++ [R]) ++ [R]), (exportDir ++ [R])] ++ fs.dirs,
       fs.files ++ ([((((exportDir ++ [R]) ++ [R]) ++ ["metadata.xml"]),
         FileData.xmlDoc (xipRoot C))] ++ pairs.map (fun pr =>
          ((((exportDir ++ [R]) ++ [R]) ++ ["content"]) ++ [fsBasename pr.2],
           (fsLookupFile fs pr.2).getD (.bytes ""))))⟩ := by
    simp
  rw [hshape, hclean]

/-- The second components of `List.enumFrom` are list members. -/
theorem snd_mem_of_mem_enumFrom {α : Type} (l : List α) :
    ∀ (n : Nat) (e : Nat × α), e ∈ l.enumFrom n → e.2 ∈ l := by
  induction l with
  | nil => intro n e h; simp [List.enumFrom] at h
  | cons a t ih =>
    intro n e h
    rw [List.enumFrom] at h
    rcases List.mem_cons.1 h with he | h
    · rw [he]; simp
    · exact List.mem_cons_of_mem a (ih (n + 1) e h)

theorem snd_mem_of_mem_enum {α : Type} {l : List α} {e : Nat × α}
    (h : e ∈ l.enum) : e.2 ∈ l := snd_mem_of_mem_enumFrom l 0 e h

theorem enum_map_snd {α γ : Type} (l : List α) (g : α → γ) :
    l.enum.map (fun e => g e.2) = l.map g := by
  rw [show (fun e : Nat × α => g e.2) = g ∘ Prod.snd from rfl]
  rw [← List.map_map, List.enum_map_snd]

theorem enum_map_snd_comp {α β γ : Type} (l : List α) (f : Nat × α → β)
    (g : α → γ) :
    ((l.enum.map (fun e => (f e, e.2))).map (fun pr => g pr.2)) = l.map g := by
  rw [List.map_map]
  show l.enum.map (fun e => g e.2) = l.map g
  exact enum_map_snd l g

theorem countTag_singleton (x : XmlNode) (t : String) :
    countTag [x] t = if x.tag = uq t then 1 else 0 := by
  by_cases h : x.tag = uq t <;> simp [countTag, List.filter, h]

theorem countTag_of_tags {cs : List XmlNode} {t0 : String}
    (h : ∀ e ∈ cs, e.tag = uq t0) :
    ∀ t, countTag cs t = if t0 = t then cs.length else 0 := by
  intro t
  by_cases ht : t0 = t
  · subst ht
    rw [countTag_all_eq h, if_pos rfl]
  · rw [countTag_none, if_neg ht]
    intro e he hc
    apply ht
    have h2 := h e he
    rw [h2] at hc
    simpa [uq] using hc

/-- Claim C6: for a non-empty preservation file list of existing files, a
non-None parent folder and an existing export folder (the staging name and
zip path fresh, the input basenames distinct, every metadata entry a truthy
XML string), `complex_asset_package` builds an in-memory XIP tree that
describes the asset (the `InformationObject` comes first), its
representation, one `ContentObject`, `Generation` and `Bitstream` per input
file, one `Identifier` per truthy identifier pair and one `Metadata`
element per metadata entry; it writes that tree to `metadata.xml` in a
staging directory named by the new asset reference together with a copy of
every input file under `content`, zips the staging directory into
`<export_folder>/<asset-reference>.zip`, removes the staging directory, and
returns the zip path. -/
theorem complexAssetPackage_builds_package
    (refs : Nat → String) (now : String)
    (sha1F : String → FsPath → FixityResult) (tempDir : FsPath)
    (p0 : FsPath) (ps : List FsPath) (exportDir : FsPath) (parent : ParentArg)
    (compress : Bool) (kw : PackageKwargs) (ids : List (String × String))
    (metas : List (String × MetaSource)) (fs : FS)
    (hio : kw.ioIdentifier = none)
    (hids : kw.identifiers = some ids)
    (hmd : kw.assetMetadata = some metas)
    (hmeta : ∀ pr ∈ metas, pyBoolOfString pr.1 = true ∧
      ∃ x, pr.2 = MetaSource.xmlString x)
    (hdir : fsIsDir fs exportDir = true)
    (hfd : ∀ d ∈ fs.dirs, ¬ (exportDir ++ [refs 0]).isPrefixOf d = true)
    (hff : ∀ pr ∈ fs.files, ¬ (exportDir ++ [refs 0]).isPrefixOf pr.1 = true)
    (hzf : (exportDir ++ [refs 0 ++ ".zip"]) ∉ fs.files.map Prod.fst)
    (hsrc : ∀ p ∈ p0 :: ps, fsIsFile fs p = true)
    (hnodup : ((p0 :: ps).map fsBasename).Nodup) :
    ∃ C : List XmlNode,
      complexAssetPackage refs now sha1F tempDir (some (p0 :: ps)) none
        (some exportDir) (some parent) compress kw fs = .ok
        (some (exportDir ++ [refs 0 ++ ".zip"]),
         ⟨fs.dirs, fs.files ++ [(exportDir ++ [refs 0 ++ ".zip"],
            .zipArchive (([refs 0, "metadata.xml"], FileData.xmlDoc (xipRoot C)) ::
              (p0 :: ps).map (fun p => ([refs 0, "content", fsBasename p],
                (fsLookupFile fs p).getD (.bytes "")))))]⟩) ∧
      C.head? = some (XmlNode.elem (uq "InformationObject") [] none
        [leaf "Ref" (some (refs 0)),
         leaf "Title" (kw.title <|> some (pySplitextRoot (fsBasename p0))),
         leaf "Description" (kw.description <|> some (pySplitextRoot (fsBasename p0))),
         leaf "SecurityTag" (some (kw.securityTag.getD "open")),
         leaf "CustomType" (some (kw.customType.getD "")),
         leaf "Parent" parent.text]) ∧
      countTag C "InformationObject" = 1 ∧
      countTag C "Representation" = 1 ∧
      countTag C "ContentObject" = (p0 :: ps).length ∧
      countTag C "Generation" = (p0 :: ps).length ∧
      countTag C "Bitstream" = (p0 :: ps).length ∧
      countTag C "Identifier" = (ids.filter
        (fun pr => pyBoolOfString pr.1 && pyBoolOfString pr.2)).length ∧
      countTag C "Metadata" = metas.length := by
  have hP : (makeRepresentationMultipleCo refs (0 + 1)
      (kw.presRepresentationName.getD "Preservation") "Preservation"
      (p0 :: ps) (some (refs 0))).2.1 =
      (p0 :: ps).enum.map (fun e => (refs (0 + 1 + e.1), e.2)) := rfl
  have hsrcP : ∀ pr ∈ (makeRepresentationMultipleCo refs (0 + 1)
      (kw.presRepresentationName.getD "Preservation") "Preservation"
      (p0 :: ps) (some (refs 0))).2.1, fsIsFile fs pr.2 = true := by
    intro pr hpr
    rw [hP] at hpr
    rcases List.mem_map.1 hpr with ⟨e, he, rfl⟩
    exact hsrc e.2 (snd_mem_of_mem_enum he)
  have hnodupP : ((makeRepresentationMultipleCo refs (0 + 1)
      (kw.presRepresentationName.getD "Preservation") "Preservation"
      (p0 :: ps) (some (refs 0))).2.1.map
        (fun pr => fsBasename pr.2)).Nodup := by
    rw [hP, enum_map_snd_comp]
    exact hnodup
  have hmapzip : (makeRepresentationMultipleCo refs (0 + 1)
      (kw.presRepresentationName.getD "Preservation") "Preservation"
      (p0 :: ps) (some (refs 0))).2.1.map (fun pr =>
        (([refs 0, "content", fsBasename pr.2] : FsPath),
         (fsLookupFile fs pr.2).getD (.bytes ""))) =
      (p0 :: ps).map (fun p => (([refs 0, "content", fsBasename p] : FsPath),
        (fsLookupFile fs p).getD (.bytes ""))) := by
    rw [hP, List.map_map]
    exact enum_map_snd (p0 :: ps) (fun p =>
      (([refs 0, "content", fsBasename p] : FsPath),
       (fsLookupFile fs p).getD (.bytes "")))
  have hPlen : (makeRepresentationMultipleCo refs (0 + 1)
      (kw.presRepresentationName.getD "Preservation") "Preservation"
      (p0 :: ps) (some (refs 0))).2.1.length = (p0 :: ps).length := by
    rw [hP]
    simp
  obtain ⟨bl, hbl, hbllen, hbltags⟩ := bitstreamStage_ok fs
    (kw.presFixityCallback.getD sha1F)
    (makeRepresentationMultipleCo refs (0 + 1)
      (kw.presRepresentationName.getD "Preservation") "Preservation"
      (p0 :: ps) (some (refs 0))).2.1 hsrcP
  obtain ⟨il, hil, hillen, hiltags⟩ := identifierStage_ok (some (refs 0)) ids
  obtain ⟨ml, hml, hmllen, hmltags⟩ := metadataStage_ok refs (some (refs 0)) fs
    metas hmeta (makeRepresentationMultipleCo refs (0 + 1)
      (kw.presRepresentationName.getD "Preservation") "Preservation"
      (p0 :: ps) (some (refs 0))).2.2
  have hBl := countTag_of_tags hbltags
  have hIl := countTag_of_tags hiltags
  have hMl := countTag_of_tags hmltags
  have hCos : ∀ t, countTag (List.map (fun pr =>
      makeContentObjects (some (kw.presContentTitle.getD
          (pySplitextRoot (fsBasename pr.2))))
        pr.1 (some (refs 0)) (kw.securityTag.getD "open")
        (some (kw.presContentDescription.getD (pySplitextRoot (fsBasename pr.2))))
        (kw.customType.getD ""))
      (makeRepresentationMultipleCo refs (0 + 1)
        (kw.presRepresentationName.getD "Preservation") "Preservation"
        (p0 :: ps) (some (refs 0))).2.1) t =
      if "ContentObject" = t then (p0 :: ps).length else 0 := by
    intro t
    rw [countTag_of_tags (fun e he => by
      rcases List.mem_map.1 he with ⟨x, hx, rfl⟩
      rfl) t]
    rw [List.length_map, hPlen]
  have hGens : ∀ t, countTag (List.map (fun pr =>
      makeGeneration now (fsBasename pr.2) pr.1 (kw.presGenerationLabel.getD ""))
      (makeRepresentationMultipleCo refs (0 + 1)
        (kw.presRepresentationName.getD "Preservation") "Preservation"
        (p0 :: ps) (some (refs 0))).2.1) t =
      if "Generation" = t then (p0 :: ps).length else 0 := by
    intro t
    rw [countTag_of_tags (fun e he => by
      rcases List.mem_map.1 he with ⟨x, hx, rfl⟩
      rfl) t]
    rw [List.length_map, hPlen]
  have hRepTag : (makeRepresentationMultipleCo refs (0 + 1)
      (kw.presRepresentationName.getD "Preservation") "Preservation"
      (p0 :: ps) (some (refs 0))).1.tag = uq "Representation" := rfl
  refine ⟨[XmlNode.elem (uq "InformationObject") [] none
      [leaf "Ref" (some (refs 0)),
       leaf "Title" (kw.title <|> some (pySplitextRoot (fsBasename ((p0 :: ps).headD [])))),
       leaf "Description" (kw.description <|> some (pySplitextRoot (fsBasename ((p0 :: ps).headD [])))),
       leaf "SecurityTag" (some (kw.securityTag.getD "open")),
       leaf "CustomType" (some (kw.customType.getD "")),
       leaf "Parent" ((some parent).bind ParentArg.text)]]
    ++ [(makeRepresentationMultipleCo refs (0 + 1)
          (kw.presRepresentationName.getD "Preservation") "Preservation"
          (p0 :: ps) (some (refs 0))).1]
    ++ []
    ++ List.map (fun pr =>
        makeContentObjects (some (kw.presContentTitle.getD
            (pySplitextRoot (fsBasename pr.2))))
          pr.1 (some (refs 0)) (kw.securityTag.getD "open")
          (some (kw.presContentDescription.getD (pySplitextRoot (fsBasename pr.2))))
          (kw.customType.getD ""))
        (makeRepresentationMultipleCo refs (0 + 1)
          (kw.presRepresentationName.getD "Preservation") "Preservation"
          (p0 :: ps) (some (refs 0))).2.1
    ++ []
    ++ List.map (fun pr =>
        makeGeneration now (fsBasename pr.2) pr.1 (kw.presGenerationLabel.getD ""))
        (makeRepresentationMultipleCo refs (0 + 1)
          (kw.presRepresentationName.getD "Preservation") "Preservation"
          (p0 :: ps) (some (refs 0))).2.1
    ++ []
    ++ bl ++ [] ++ il ++ ml, ?_, ?_, ?_, ?_, ?_, ?_, ?_, ?_, ?_⟩
  · have haccessbits : bitstreamStage fs (kw.accessFixityCallback.getD sha1F) [] =
        .ok [] := rfl
    rw [complexAssetPackage]
    simp only [Option.getD_some, hdir, not_true, reduceCtorEq, ite_false,
      List.isEmpty_cons, List.isEmpty_nil, Bool.not_true, Bool.not_false,
      if_true, if_false, ite_true, Bool.false_eq_true, Bool.true_eq_false,
      createIo, hio, hids, hmd, Option.isSome_some, Option.getD_none,
      List.map_nil, bind, Except.bind, hbl, hil, hml, haccessbits,
      Option.map_some', pure, Except.pure]
    rw [← hmapzip]
    exact packageStaging_ok exportDir (refs 0) _
      (makeRepresentationMultipleCo refs (0 + 1)
        (kw.presRepresentationName.getD "Preservation") "Preservation"
        (p0 :: ps) (some (refs 0))).2.1 fs hdir hfd hff hzf hsrcP hnodupP
  · rfl
  · simp only [countTag_append, countTag_nil, countTag_singleton, hCos, hGens,
      hBl, hIl, hMl, hRepTag]
    simp [XmlNode.tag, uq, hbllen, hPlen, hillen, hmllen]
  · simp only [countTag_append, countTag_nil, countTag_singleton, hCos, hGens,
      hBl, hIl, hMl, hRepTag]
    simp [XmlNode.tag, uq, hbllen, hPlen, hillen, hmllen]
  · simp only [countTag_append, countTag_nil, countTag_singleton, hCos, hGens,
      hBl, hIl, hMl, hRepTag]
    simp [XmlNode.tag, uq, hbllen, hPlen, hillen, hmllen]
  · simp only [countTag_append, countTag_nil, countTag_singleton, hCos, hGens,
      hBl, hIl, hMl, hRepTag]
    simp [XmlNode.tag, uq, hbllen, hPlen, hillen, hmllen]
  · simp only [countTag_append, countTag_nil, countTag_singleton, hCos, hGens,
      hBl, hIl, hMl, hRepTag]
    simp [XmlNode.tag, uq, hbllen, hPlen, hillen, hmllen]
  · simp only [countTag_append, countTag_nil, countTag_singleton, hCos, hGens,
      hBl, hIl, hMl, hRepTag]
    simp [XmlNode.tag, uq, hbllen, hPlen, hillen, hmllen]
  · simp only [countTag_append, countTag_nil, countTag_singleton, hCos, hGens,
      hBl, hIl, hMl, hRepTag]
    simp [XmlNode.tag, uq, hbllen, hPlen, hillen, hmllen]


/-- Witness for C6 on a concrete filesystem: one preservation file, one
identifier pair and one metadata entry. -/
theorem complexAssetPackage_builds_package_witness :
    ∃ C : List XmlNode,
      complexAssetPackage egRefs "NOW" egFixity ["tmp"]
        (some [["data", "f1.txt"]]) none (some ["exp"])
        (some (.strRef "P")) true
        { identifiers := some [("code", "X")],
          assetMetadata := some [("ns1", .xmlString (leaf "m" none))] } egFS = .ok
        (some ["exp", "u0.zip"],
         ⟨[["exp"]], [(["data", "f1.txt"], .bytes "hello"),
           (["exp", "u0.zip"], .zipArchive
             [(["u0", "metadata.xml"], FileData.xmlDoc (xipRoot C)),
              (["u0", "content", "f1.txt"], .bytes "hello")])]⟩) ∧
      C.head? = some (XmlNode.elem (uq "InformationObject") [] none
        [leaf "Ref" (some "u0"), leaf "Title" (some "f1"),
         leaf "Description" (some "f1"), leaf "SecurityTag" (some "open"),
         leaf "CustomType" (some ""), leaf "Parent" (some "P")]) ∧
      countTag C "InformationObject" = 1 ∧
      countTag C "Representation" = 1 ∧
      countTag C "ContentObject" = 1 ∧
      countTag C "Generation" = 1 ∧
      countTag C "Bitstream" = 1 ∧
      countTag C "Identifier" = 1 ∧
      countTag C "Metadata" = 1 := by
  exact complexAssetPackage_builds_package egRefs "NOW" egFixity ["tmp"]
    ["data", "f1.txt"] [] ["exp"] (.strRef "P") true
    { identifiers := some [("code", "X")],
      assetMetadata := some [("ns1", .xmlString (leaf "m" none))] }
    [("code", "X")] [("ns1", .xmlString (leaf "m" none))] egFS
    rfl rfl rfl
    (by intro pr hpr
        rw [List.mem_singleton] at hpr
        subst hpr
        exact ⟨by decide, ⟨leaf "m" none, rfl⟩⟩)
    (by decide) (by decide) (by decide) (by decide) (by decide) (by decide)

end PyPreservica
